import Mathlib

/-!
RT5033 multi-function device core (`drivers/mfd/rt5033_core.c`).

A shallow embedding of the register-access layer, of bring-up
(`rt5033_mfd_probe`), of removal (`rt5033_mfd_remove`) and of the shutdown
hook (`rt5033_shutdown`).

The C code works on one `i2c_client` and the `rt5033_mfd_chip` hanging off
it.  Here that world is one record, `State`, passed explicitly.  A call that
does not return (a `mutex_lock` on a mutex that is already held, or a hook of
the driver that reaches through client data that is unset or points at a
freed handle) is `none`.  The register operations are the interface for the
sub-device drivers, which hold the handle they were given at registration;
removal and shutdown are called by the driver framework with the client only,
so they look the handle up and the model says what they find.
Everything the file calls but does not define (the SMBus primitives, the
allocator, the interrupt-descriptor allocator, `rt5033_init_irq`, the MFD
core) is an environment: its results are inputs (`State.script`, `Env`), its
effects are recorded in `State` and in the event log.
-/

namespace RT5033

/-! ## Constants -/

/-- Error number `ENOMEM` of `linux/errno.h`. -/
def ENOMEM : Int := 12

/-- Error number `EINVAL` of `linux/errno.h`. -/
def EINVAL : Int := 22

/-- Error number `ENOSYS` of `linux/errno.h`. -/
def ENOSYS : Int := 38

/-- Adapter capability `I2C_FUNC_SMBUS_BYTE_DATA` of `linux/i2c.h`
(read and write of one byte at a command). -/
def I2C_FUNC_SMBUS_BYTE_DATA : Nat := 0x00180000

/-- Adapter capability `I2C_FUNC_SMBUS_WORD_DATA` of `linux/i2c.h`. -/
def I2C_FUNC_SMBUS_WORD_DATA : Nat := 0x00600000

/-- Adapter capability `I2C_FUNC_SMBUS_I2C_BLOCK` of `linux/i2c.h`
(block read and block write). -/
def I2C_FUNC_SMBUS_I2C_BLOCK : Nat := 0x0C000000

/-- Largest block the SMBus layer transfers, `I2C_SMBUS_BLOCK_MAX`. -/
def I2C_SMBUS_BLOCK_MAX : Nat := 32

/-- The macro `RT5033_REGULATOR_REG_OUTPUT_EN`. -/
def RT5033_REGULATOR_REG_OUTPUT_EN : Nat := 0x41

/-- The macro `RT5033_REGULATOR_EN_MASK_LDO_SAFE`, that is `1<<6`. -/
def RT5033_REGULATOR_EN_MASK_LDO_SAFE : Nat := 1 <<< 6

/-! ## Data model -/

/-- The three function categories, each behind its own `CONFIG_*` switch. -/
inductive Category where
  | regulator
  | fled
  | charger
  deriving DecidableEq, Repr

/-- One `mfd_cell` of the three cell tables of the file. -/
inductive Cell where
  | ldo_safe
  | ldo1
  | dcdc1
  | fled
  | charger
  deriving DecidableEq, Repr

/-- The cell tables `rt5033_regulator_devs`, `rt5033_fled_devs` and
`rt5033_charger_devs`. -/
def cells : Category → List Cell
  | Category.regulator => [Cell.ldo_safe, Cell.ldo1, Cell.dcdc1]
  | Category.fled => [Cell.fled]
  | Category.charger => [Cell.charger]

/-- Modelled from the spec: the states of the ChipLifecycle state machine of
section 4.4.  The source keeps no such variable; `State.phase` records which
transition the code has completed. -/
inductive Lifecycle where
  | Uninitialized
  | BusValidated
  | InterruptsBound
  | SubdevicesAttached
  | ShuttingDown
  | Removed
  | Failed
  deriving DecidableEq, Repr

/-- What the code does to its environment, in the order it does it: one event
for each call of a kernel primitive, with its result, and `assign_bits` for
each entry into `rt5033_assign_bits` (so also for `rt5033_set_bits` and
`rt5033_clr_bits`). -/
inductive Event where
  | mutex_lock
  | mutex_unlock
  | read_byte (reg : Nat) (ret : Int)
  | write_byte (reg : Nat) (val : Nat) (ret : Int)
  | read_block (reg : Nat) (bytes : Int) (ret : Int)
  | write_block (reg : Nat) (bytes : Int) (ret : Int)
  | assign_bits (reg : Nat) (mask : Nat) (data : Nat)
  | kzalloc (ok : Bool)
  | kfree
  | irq_alloc_descs (ret : Int)
  | irq_domain_add_legacy (base : Int)
  | mutex_init
  | mutex_destroy
  | wake_lock_init
  | wake_lock_destroy
  | init_irq (ret : Int)
  | mfd_add_devices (c : Category) (ret : Int)
  | mfd_remove_devices
  deriving DecidableEq, Repr

/-- The device, the adapter, the platform data and the chip handle.

* `regs`: the register file of the chip, one byte per 8-bit address;
* `script`: the results of the coming bus transfers, in order: a negative
  entry makes the transfer fail with that error code and no effect, any other
  entry (or none left) lets it succeed;
* `functionality`: what `i2c_get_functionality` reports for the adapter;
* `pdata_irq_base`: `pdata->irq_base`;
* `chip_id`: which chip handle the fields below describe: the number of
  handles allocated so far, standing for the address `kzalloc` returned last;
* `chip_alloc`, `chip_irq_base`, `io_lock_init`, `io_lock`,
  `wake_lock_init`: the `rt5033_mfd_chip` (memory live, `irq_base`, mutex
  initialised, mutex held, wake lock initialised);
* `clientdata`: what `i2c_get_clientdata` returns: `none` for NULL, otherwise
  the handle given to `i2c_set_clientdata`;
* `irq_descs`: bases of the interrupt-descriptor ranges allocated and not freed;
* `irq_domains`: bases of the legacy interrupt domains added;
* `children`: the sub-devices registered under `chip->dev`;
* `log`: every event so far, oldest first. -/
structure State where
  regs : Nat → Nat
  script : List Int
  functionality : Nat
  pdata_irq_base : Int
  chip_id : Nat
  chip_alloc : Bool
  chip_irq_base : Int
  io_lock_init : Bool
  io_lock : Bool
  wake_lock_init : Bool
  clientdata : Option Nat
  irq_descs : List Int
  irq_domains : List Int
  children : List Cell
  phase : Lifecycle
  log : List Event

/-- Appends one event to the log. -/
def State.emit (s : State) (e : Event) : State :=
  { s with log := s.log ++ [e] }

/-! ## Kernel primitives the file calls -/

/-- Modelled from the spec: the kernel's `mutex_lock` on `chip->io_lock`.  The
lock is a simple mutual-exclusion lock, not reentrant (section 5), so locking
it while it is held never returns. -/
def mutex_lock (s : State) : Option State :=
  if s.io_lock then none
  else some ({ s with io_lock := true }.emit Event.mutex_lock)

/-- Modelled from the spec: the kernel's `mutex_unlock` on `chip->io_lock`
(section 5). -/
def mutex_unlock (s : State) : State :=
  { s with io_lock := false }.emit Event.mutex_unlock

/-- Takes the result of the next transfer off the script: `some e` when the
transfer fails with the negative code `e`. -/
def nextFault (s : State) : Option Int × State :=
  match s.script with
  | [] => (none, s)
  | r :: rest => (if r < 0 then some r else none, { s with script := rest })

/-- Modelled from the spec: `i2c_smbus_read_byte_data`, the single-byte read
primitive of the byte-addressed register space (section 6): the byte at the
8-bit command, or a negative error code. -/
def i2c_smbus_read_byte_data (s : State) (reg : Nat) : Int × State :=
  match nextFault s with
  | (some e, s1) => (e, s1.emit (Event.read_byte reg e))
  | (none, s1) =>
    let v : Int := ((s1.regs (reg % 256) % 256 : Nat) : Int)
    (v, s1.emit (Event.read_byte reg v))

/-- Modelled from the spec: `i2c_smbus_write_byte_data`, the single-byte write
primitive (section 6): stores the byte and returns 0, or returns a negative
error code and stores nothing. -/
def i2c_smbus_write_byte_data (s : State) (reg : Nat) (value : Nat) : Int × State :=
  match nextFault s with
  | (some e, s1) => (e, s1.emit (Event.write_byte reg value e))
  | (none, s1) =>
    (0, { s1 with regs := Function.update s1.regs (reg % 256) (value % 256) }.emit
      (Event.write_byte reg value 0))

/-- Number of bytes a block transfer of `bytes` bytes moves: the length is
passed as a `u8` and cut at `I2C_SMBUS_BLOCK_MAX`. -/
def blockLen (bytes : Int) : Nat :=
  min (bytes.toNat % 256) I2C_SMBUS_BLOCK_MAX

/-- Stores the bytes of `src` at `reg`, `reg + 1`, ... -/
def storeBlock (regs : Nat → Nat) (reg : Nat) : List Nat → Nat → Nat
  | [] => regs
  | b :: bs => storeBlock (Function.update regs (reg % 256) (b % 256)) (reg + 1) bs

/-- Modelled from the spec: `i2c_smbus_read_i2c_block_data`, the block read
primitive (section 6): the bytes at `reg`, `reg + 1`, ... are copied to the
front of `dest` and their number is returned, or a negative error code is
returned and `dest` is left alone. -/
def i2c_smbus_read_i2c_block_data (s : State) (reg : Nat) (bytes : Int)
    (dest : List Nat) : Int × List Nat × State :=
  match nextFault s with
  | (some e, s1) => (e, dest, s1.emit (Event.read_block reg bytes e))
  | (none, s1) =>
    let n := blockLen bytes
    let data := (List.range n).map (fun i => s1.regs ((reg + i) % 256) % 256)
    ((n : Int), data ++ dest.drop n, s1.emit (Event.read_block reg bytes (n : Int)))

/-- Modelled from the spec: `i2c_smbus_write_i2c_block_data`, the block write
primitive (section 6): the first bytes of `src` are stored at `reg`,
`reg + 1`, ... and 0 is returned, or a negative error code is returned and
nothing is stored. -/
def i2c_smbus_write_i2c_block_data (s : State) (reg : Nat) (bytes : Int)
    (src : List Nat) : Int × State :=
  match nextFault s with
  | (some e, s1) => (e, s1.emit (Event.write_block reg bytes e))
  | (none, s1) =>
    (0, { s1 with regs := storeBlock s1.regs reg (src.take (blockLen bytes)) }.emit
      (Event.write_block reg bytes 0))

/-! ## Register access (`rt5033_core.c`, lines 130 to 249) -/

/-- The function `rt5033_read_device`: a block read when `bytes > 1`; otherwise
a byte read whose result, when not negative, is stored in `dest[0]`. -/
def rt5033_read_device (s : State) (reg : Nat) (bytes : Int) (dest : List Nat) :
    Int × List Nat × State :=
  if bytes > 1 then
    i2c_smbus_read_i2c_block_data s reg bytes dest
  else
    match i2c_smbus_read_byte_data s reg with
    | (ret, s1) =>
      if ret < 0 then (ret, dest, s1)
      else (ret, (ret.toNat % 256) :: dest.drop 1, s1)

/-- The function `rt5033_write_device`: a block write when `bytes > 1`,
otherwise a byte write of `src[0]`. -/
def rt5033_write_device (s : State) (reg : Nat) (bytes : Int) (src : List Nat) :
    Int × State :=
  if bytes > 1 then
    i2c_smbus_write_i2c_block_data s reg bytes src
  else
    i2c_smbus_write_byte_data s reg (src.headD 0)

/-- The function `rt5033_block_read_device`. -/
def rt5033_block_read_device (s : State) (reg : Nat) (bytes : Int) (dest : List Nat) :
    Option (Int × List Nat × State) :=
  match mutex_lock s with
  | none => none
  | some s1 =>
    match rt5033_read_device s1 reg bytes dest with
    | (ret, dest1, s2) => some (ret, dest1, mutex_unlock s2)

/-- The function `rt5033_block_write_device`. -/
def rt5033_block_write_device (s : State) (reg : Nat) (bytes : Int) (src : List Nat) :
    Option (Int × State) :=
  match mutex_lock s with
  | none => none
  | some s1 =>
    match rt5033_write_device s1 reg bytes src with
    | (ret, s2) => some (ret, mutex_unlock s2)

/-- The function `rt5033_reg_read`: the byte read, or the negative error code. -/
def rt5033_reg_read (s : State) (reg : Nat) : Option (Int × State) :=
  match mutex_lock s with
  | none => none
  | some s1 =>
    match rt5033_read_device s1 reg 1 [0] with
    | (ret, data, s2) =>
      let s3 := mutex_unlock s2
      if ret < 0 then some (ret, s3) else some ((data.headD 0 : Nat), s3)

/-- The function `rt5033_reg_write`; `data` is an `unsigned char`. -/
def rt5033_reg_write (s : State) (reg : Nat) (data : Nat) : Option (Int × State) :=
  match mutex_lock s with
  | none => none
  | some s1 =>
    match i2c_smbus_write_byte_data s1 reg (data % 256) with
    | (ret, s2) => some (ret, mutex_unlock s2)

/-- The function `rt5033_assign_bits`; `mask` and `data` are `unsigned char`.
After a successful read, `value &= ~mask; value |= data;` and the byte is
written back.  On a byte, `~mask` is `255 ^^^ mask`. -/
def rt5033_assign_bits (s : State) (reg : Nat) (mask data : Nat) : Option (Int × State) :=
  match mutex_lock (s.emit (Event.assign_bits reg (mask % 256) (data % 256))) with
  | none => none
  | some s1 =>
    match rt5033_read_device s1 reg 1 [0] with
    | (ret, value, s2) =>
      if ret < 0 then some (ret, mutex_unlock s2)
      else
        let v := ((value.headD 0 &&& (255 ^^^ (mask % 256))) ||| (data % 256)) % 256
        match i2c_smbus_write_byte_data s2 reg v with
        | (ret1, s3) => some (ret1, mutex_unlock s3)

/-- The function `rt5033_set_bits`. -/
def rt5033_set_bits (s : State) (reg : Nat) (mask : Nat) : Option (Int × State) :=
  rt5033_assign_bits s reg mask mask

/-- The function `rt5033_clr_bits`. -/
def rt5033_clr_bits (s : State) (reg : Nat) (mask : Nat) : Option (Int × State) :=
  rt5033_assign_bits s reg mask 0

/-! ## Bring-up, removal, shutdown (`rt5033_core.c`, lines 279 to 480) -/

/-- What one build and one bring-up attempt get from outside the file.

* `CONFIG_REGULATOR_RT5033`, `CONFIG_FLED_RT5033`, `CONFIG_CHARGER_RT5033`:
  the build-time switches of the three categories;
* `linux_ge_3_4`: `LINUX_VERSION_CODE >= KERNEL_VERSION(3,4,0)`;
* `kzalloc_ok`: the allocation of the chip handle succeeds;
* `irq_alloc_ret`: what `irq_alloc_descs` returns (a base, or a negative code);
* `init_irq_ret`: what `rt5033_init_irq` returns;
* `mfd_add_ret`: for each category, a negative code when its registration
  fails. -/
structure Env where
  CONFIG_REGULATOR_RT5033 : Bool
  CONFIG_FLED_RT5033 : Bool
  CONFIG_CHARGER_RT5033 : Bool
  linux_ge_3_4 : Bool
  kzalloc_ok : Bool
  irq_alloc_ret : Int
  init_irq_ret : Int
  mfd_add_ret : Category → Int

/-- The statement `pdata->irq_base = irq_alloc_descs(-1, 0, RT5033_IRQS_NR, 0)`:
a range that was handed out stays allocated until it is freed. -/
def irq_alloc_descs (env : Env) (s : State) : State :=
  let r := env.irq_alloc_ret
  { s with pdata_irq_base := r,
           irq_descs := if r < 0 then s.irq_descs else r :: s.irq_descs }.emit
    (Event.irq_alloc_descs r)

/-- Modelled from the spec: `rt5033_init_irq`, declared `extern` and defined in
another file: it binds the physical interrupt line to the virtual range
(section 4.2) and reports failure with a negative code. -/
def rt5033_init_irq (env : Env) (s : State) : Int × State :=
  (env.init_irq_ret, s.emit (Event.init_irq env.init_irq_ret))

/-- Modelled from the spec: `mfd_add_devices` of the MFD core for the cell
table of one category (section 4.3): on success every cell of the table is
registered and 0 is returned; on failure a negative code is returned and no
cell of the table is left registered. -/
def mfd_add_devices (env : Env) (s : State) (c : Category) : Int × State :=
  let r := env.mfd_add_ret c
  if r < 0 then (r, s.emit (Event.mfd_add_devices c r))
  else (0, { s with children := s.children ++ cells c }.emit (Event.mfd_add_devices c 0))

/-- Modelled from the spec: `mfd_remove_devices` of the MFD core (section 4.3,
`unregisterAll`): unregisters every sub-device under `chip->dev`; it cannot
fail. -/
def mfd_remove_devices (s : State) : State :=
  { s with children := [] }.emit Event.mfd_remove_devices

/-- The code after the label `err_init_irq` (the label
`err_add_regulator_devs` is the same place): destroy the wake lock and the
mutex, free the chip, return `ret`. -/
def err_init_irq (s : State) (ret : Int) : Int × State :=
  let s1 := { s with wake_lock_init := false }.emit Event.wake_lock_destroy
  let s2 := { s1 with io_lock_init := false }.emit Event.mutex_destroy
  let s3 := { s2 with chip_alloc := false }.emit Event.kfree
  (ret, { s3 with phase := Lifecycle.Failed })

/-- The code after the labels `err_add_chg_devs` and `err_add_fled_devs`:
`mfd_remove_devices`, then on to `err_init_irq`. -/
def err_add_fled_devs (s : State) (ret : Int) : Int × State :=
  err_init_irq (mfd_remove_devices s) ret

/-- The last part of `rt5033_mfd_probe`: the charger cells (lines 389 to 406). -/
def probe_charger (env : Env) (s : State) (ret : Int) : Int × State :=
  if env.CONFIG_CHARGER_RT5033 then
    match mfd_add_devices env s Category.charger with
    | (ret1, s1) =>
      if ret1 < 0 then err_add_fled_devs s1 ret1
      else (ret1, { s1 with phase := Lifecycle.SubdevicesAttached })
  else (ret, { s with phase := Lifecycle.SubdevicesAttached })

/-- The flash-LED cells of `rt5033_mfd_probe` (lines 371 to 386) and what
follows. -/
def probe_fled (env : Env) (s : State) (ret : Int) : Int × State :=
  if env.CONFIG_FLED_RT5033 then
    match mfd_add_devices env s Category.fled with
    | (ret1, s1) =>
      if ret1 < 0 then err_add_fled_devs s1 ret1
      else probe_charger env s1 ret1
  else probe_charger env s ret

/-- The regulator cells of `rt5033_mfd_probe` (lines 354 to 369) and what
follows. -/
def probe_regulator (env : Env) (s : State) (ret : Int) : Int × State :=
  if env.CONFIG_REGULATOR_RT5033 then
    match mfd_add_devices env s Category.regulator with
    | (ret1, s1) =>
      if ret1 < 0 then err_init_irq s1 ret1
      else probe_fled env s1 ret1
  else probe_fled env s ret

/-- The manual-reset action of `rt5033_mfd_probe` and what follows (lines 340
to 406): read register 0x47 (the value is only printed), clear its bit 3,
initialise the interrupts, register the cells.  The results of
`rt5033_reg_read(i2c, 0x47)` and of `rt5033_clr_bits(i2c, 0x47, 1<<3)` are
not looked at. -/
def probe_manual_reset (env : Env) (s : State) : Option (Int × State) :=
  match rt5033_reg_read s 0x47 with
  | none => none
  | some (_, s1) =>
    match rt5033_clr_bits s1 0x47 (1 <<< 3) with
    | none => none
    | some (_, s2) =>
      match rt5033_init_irq env s2 with
      | (ret, s3) =>
        if ret < 0 then some (err_init_irq s3 ret)
        else some (probe_regulator env { s3 with phase := Lifecycle.InterruptsBound } ret)

/-- The chip set-up of `rt5033_mfd_probe` once the interrupt base is known
(lines 325 to 338): record the base, add the legacy interrupt domain, set the
client data, initialise the mutex and the wake lock. -/
def probe_init_chip (env : Env) (s : State) : State :=
  let s1 := { s with chip_irq_base := s.pdata_irq_base }
  let s2 :=
    if env.linux_ge_3_4 then
      { s1 with irq_domains := s1.chip_irq_base :: s1.irq_domains }.emit
        (Event.irq_domain_add_legacy s1.chip_irq_base)
    else s1
  let s3 := { s2 with clientdata := some s2.chip_id }
  let s4 := { s3 with io_lock_init := true, io_lock := false }.emit Event.mutex_init
  { s4 with wake_lock_init := true }.emit Event.wake_lock_init

/-- The function `rt5033_mfd_probe`.  The platform data is taken to be there
(`pdata` is dereferenced without a test).  The exits through `err_mfd_nomem`,
`err_i2cfunc_not_support` and `irq_base_err` return without freeing
anything. -/
def rt5033_mfd_probe (env : Env) (s : State) : Option (Int × State) :=
  let s0 := s.emit (Event.kzalloc env.kzalloc_ok)
  if !env.kzalloc_ok then
    some (-ENOMEM, { s0 with phase := Lifecycle.Failed })
  else
    let s1 := { s0 with chip_id := s0.chip_id + 1, chip_alloc := true, chip_irq_base := 0,
                        io_lock_init := false, io_lock := false, wake_lock_init := false }
    let need := I2C_FUNC_SMBUS_BYTE_DATA ||| I2C_FUNC_SMBUS_WORD_DATA |||
      I2C_FUNC_SMBUS_I2C_BLOCK
    if s1.functionality &&& need ≠ need then
      some (-ENOSYS, { s1 with phase := Lifecycle.Failed })
    else
      let s2 := { s1 with phase := Lifecycle.BusValidated }
      let s3 := if s2.pdata_irq_base < 0 then irq_alloc_descs env s2 else s2
      if s3.pdata_irq_base < 0 then
        some (-EINVAL, { s3 with phase := Lifecycle.Failed })
      else
        probe_manual_reset env (probe_init_chip env s3)

/-- The client data points at the chip handle and the handle has not been
freed: `i2c_get_clientdata` gives a pointer that may be dereferenced. -/
def chipLive (s : State) : Bool :=
  s.clientdata == some s.chip_id && s.chip_alloc

/-- The function `rt5033_mfd_remove`.  It uses `chip = i2c_get_clientdata(i2c)`
without a test (`chip->dev`, `chip->irq_wake_lock`, `chip->io_lock`,
`kfree(chip)`): on a client that was never brought up the pointer is NULL,
after a failed bring-up or a removal it points at freed memory, and the call
does not return normally. -/
def rt5033_mfd_remove (s : State) : Option (Int × State) :=
  if chipLive s then
    let s0 := mfd_remove_devices { s with phase := Lifecycle.ShuttingDown }
    let s1 := { s0 with wake_lock_init := false }.emit Event.wake_lock_destroy
    let s2 := { s1 with io_lock_init := false }.emit Event.mutex_destroy
    let s3 := { s2 with chip_alloc := false }.emit Event.kfree
    some (0, { s3 with phase := Lifecycle.Removed })
  else none

/-- The function `rt5033_shutdown`: the result of `rt5033_set_bits` is dropped.
The hook gets the device only; through `rt5033_set_bits` it reaches
`mutex_lock(&chip->io_lock)` with `chip = i2c_get_clientdata(i2c)` untested,
so without a live handle it does not return normally. -/
def rt5033_shutdown (s : State) : Option State :=
  if chipLive s then
    match rt5033_set_bits s RT5033_REGULATOR_REG_OUTPUT_EN
        RT5033_REGULATOR_EN_MASK_LDO_SAFE with
    | none => none
    | some (_, s1) => some s1
  else none

/-! ## Observations on states and logs -/

/-- A device nothing has been done to yet, with the given register file,
transfer script, adapter capabilities and `pdata->irq_base`. -/
def fresh (regs : Nat → Nat) (script : List Int) (functionality : Nat)
    (pdata_irq_base : Int) : State :=
  { regs := regs, script := script, functionality := functionality,
    pdata_irq_base := pdata_irq_base, chip_id := 0, chip_alloc := false,
    chip_irq_base := 0, io_lock_init := false, io_lock := false, wake_lock_init := false,
    clientdata := none, irq_descs := [], irq_domains := [], children := [],
    phase := Lifecycle.Uninitialized, log := [] }

/-- The coming `n` transfers succeed: none of the first `n` entries of the
script is negative. -/
def transfersOk (n : Nat) (script : List Int) : Bool :=
  (script.take n).all (fun r => decide (0 ≤ r))

/-- The byte that `readModifyWrite(address, mask, value)` leaves according to
the specification's words: clear the bits in `mask`, set the bits of
`value & mask`. -/
def readModifyWrite_spec (old mask value : Nat) : Nat :=
  (old &&& (255 ^^^ mask)) ||| (value &&& mask)

/-- The event is a bus transfer. -/
def isTransfer : Event → Bool
  | Event.read_byte _ _ => true
  | Event.write_byte _ _ _ => true
  | Event.read_block _ _ _ => true
  | Event.write_block _ _ _ => true
  | _ => false

/-- The event takes or releases the bus lock. -/
def isLockEvent : Event → Bool
  | Event.mutex_lock => true
  | Event.mutex_unlock => true
  | _ => false

/-- The five exported operations of the register-access layer, with their
arguments. -/
inductive BusOp where
  | block_read (reg : Nat) (bytes : Int) (dest : List Nat)
  | block_write (reg : Nat) (bytes : Int) (src : List Nat)
  | reg_read (reg : Nat)
  | reg_write (reg : Nat) (data : Nat)
  | assign_bits (reg : Nat) (mask : Nat) (data : Nat)

/-- Runs one operation of the register-access layer: its return value and the
state it leaves. -/
def BusOp.run : BusOp → State → Option (Int × State)
  | BusOp.block_read reg bytes dest, s =>
    (rt5033_block_read_device s reg bytes dest).map (fun r => (r.1, r.2.2))
  | BusOp.block_write reg bytes src, s => rt5033_block_write_device s reg bytes src
  | BusOp.reg_read reg, s => rt5033_reg_read s reg
  | BusOp.reg_write reg data, s => rt5033_reg_write s reg data
  | BusOp.assign_bits reg mask data, s => rt5033_assign_bits s reg mask data

/-- The categories the build has, in the order `rt5033_mfd_probe` registers
them. -/
def enabledCategories (env : Env) : List Category :=
  (if env.CONFIG_REGULATOR_RT5033 then [Category.regulator] else []) ++
  (if env.CONFIG_FLED_RT5033 then [Category.fled] else []) ++
  (if env.CONFIG_CHARGER_RT5033 then [Category.charger] else [])

/-- The registration attempts of a log, in order, each with its result. -/
def regAttempts : List Event → List (Category × Int)
  | [] => []
  | Event.mfd_add_devices c r :: es => (c, r) :: regAttempts es
  | _ :: es => regAttempts es

/-- The event is the entry into `rt5033_assign_bits` that clears bit 3 of
register 0x47. -/
def clearsManualReset : Event → Bool
  | Event.assign_bits reg mask data => reg == 0x47 && mask == 0x08 && data == 0
  | _ => false

/-- Every registration attempt of the log comes after an entry into
`rt5033_assign_bits` that clears bit 3 of register 0x47; `seen` says whether
such an entry came before the stretch of log at hand. -/
def clearedBeforeReg : Bool → List Event → Bool
  | _, [] => true
  | seen, Event.mfd_add_devices _ _ :: es => seen && clearedBeforeReg seen es
  | seen, e :: es => clearedBeforeReg (seen || clearsManualReset e) es

/-- No registration is attempted after one that failed. -/
def stopsAtFailure : List (Category × Int) → Bool
  | [] => true
  | (_, r) :: rest => if r < 0 then rest.isEmpty else stopsAtFailure rest

/-- The registration attempts that registering the categories `cs` in order
makes when it stops at the first failure: each category with the result of
its registration, up to and including the first that fails. -/
def attemptsOf (env : Env) : List Category → List (Category × Int)
  | [] => []
  | c :: cs =>
    if env.mfd_add_ret c < 0 then [(c, env.mfd_add_ret c)]
    else (c, 0) :: attemptsOf env cs

/-- The adapter has everything `rt5033_mfd_probe` asks for. -/
def fullFunctionality : Nat :=
  I2C_FUNC_SMBUS_BYTE_DATA ||| I2C_FUNC_SMBUS_WORD_DATA ||| I2C_FUNC_SMBUS_I2C_BLOCK

/-- A build with all three categories, on a kernel from 3.4 on, in which the
allocation succeeds, `irq_alloc_descs` hands out the range at 100,
`rt5033_init_irq` succeeds and each registration returns what `add` says. -/
def allEnabled (add : Category → Int) : Env :=
  { CONFIG_REGULATOR_RT5033 := true, CONFIG_FLED_RT5033 := true,
    CONFIG_CHARGER_RT5033 := true, linux_ge_3_4 := true, kzalloc_ok := true,
    irq_alloc_ret := 100, init_irq_ret := 0, mfd_add_ret := add }

/-- Registration results in which only the charger fails, with `-ENOMEM`. -/
def chargerFails : Category → Int
  | Category.charger => -12
  | _ => 0

/-- Registration results in which only the flash LED fails, with `-ENOMEM`. -/
def fledFails : Category → Int
  | Category.fled => -12
  | _ => 0

/-- A device with all registers 0, which is not yet brought up and has no
interrupt base assigned by the board. -/
def blankDevice (script : List Int) (functionality : Nat) : State :=
  fresh (fun _ => 0) script functionality (-1)

/-- The device after a bring-up that succeeded: all three categories
registered, register `a` holding the low byte of `a`. -/
def attachedDevice : State :=
  ((rt5033_mfd_probe (allEnabled (fun _ => 0))
    (fresh (fun a => a % 256) [] fullFunctionality (-1))).map Prod.snd).getD
    (blankDevice [] 0)

/-- A device whose register 0x47 has the manual-reset enable bit (bit 3) set. -/
def resetArmedDevice (script : List Int) : State :=
  fresh (fun _ => 0x08) script fullFunctionality (-1)

/-- The device after a bring-up that succeeded on a device whose registers are
all 0. -/
def attachedBlank : State :=
  ((rt5033_mfd_probe (allEnabled (fun _ => 0))
    (blankDevice [] fullFunctionality)).map Prod.snd).getD (blankDevice [] 0)

/-- The device after a bring-up that succeeded and the removal that followed. -/
def removedDevice : State :=
  ((rt5033_mfd_remove attachedBlank).map Prod.snd).getD (blankDevice [] 0)

/-- A build with all three categories in which the allocation of the chip
handle fails. -/
def allocFails : Env :=
  { allEnabled (fun _ => 0) with kzalloc_ok := false }

/-! ## Lemmas on bytes -/

theorem testBit_255 (i : Nat) : Nat.testBit 255 i = decide (i < 8) := by
  have h := Nat.testBit_two_pow_sub_one 8 i
  simpa using h

theorem testBit_byte_high (d i : Nat) (hd : d < 256) (hi : 8 ≤ i) : d.testBit i = false := by
  apply Nat.testBit_lt_two_pow
  calc d < 256 := hd
    _ = 2 ^ 8 := by norm_num
    _ ≤ 2 ^ i := Nat.pow_le_pow_right (by norm_num) hi

theorem byte_or_lt (a b : Nat) (ha : a < 256) (hb : b < 256) : a ||| b < 256 := by
  have h : (256 : Nat) = 2 ^ 8 := by norm_num
  rw [h] at *
  exact Nat.or_lt_two_pow ha hb

theorem byte_and_lt (a b : Nat) (ha : a < 256) : a &&& b < 256 :=
  lt_of_le_of_lt Nat.and_le_left ha

theorem assigned_lt (o m d : Nat) : ((o % 256 &&& (255 ^^^ m)) ||| d % 256) < 256 :=
  byte_or_lt _ _ (byte_and_lt _ _ (Nat.mod_lt _ (by norm_num))) (Nat.mod_lt _ (by norm_num))

theorem and_or_absorb (o n d : Nat) : (((o &&& n) ||| d) &&& n) ||| d = (o &&& n) ||| d := by
  apply Nat.eq_of_testBit_eq
  intro i
  simp only [Nat.testBit_or, Nat.testBit_and]
  cases o.testBit i <;> cases n.testBit i <;> cases d.testBit i <;> rfl

theorem and_mask_of_inside (d m : Nat) (hd : d < 256) (h : d &&& (255 ^^^ m) = 0) :
    d &&& m = d := by
  apply Nat.eq_of_testBit_eq
  intro i
  have h1 := congrArg (fun x => x.testBit i) h
  simp only [Nat.testBit_and, Nat.testBit_xor, Nat.zero_testBit, testBit_255] at h1 ⊢
  by_cases hi : i < 8
  · simp [hi] at h1
    cases hdb : d.testBit i <;> cases hm : m.testBit i <;> simp_all
  · simp [testBit_byte_high d i hd (by omega)]

theorem outside_unchanged (o m d : Nat) (h : d &&& (255 ^^^ m) = 0) :
    ((o &&& (255 ^^^ m)) ||| d) &&& (255 ^^^ m) = o &&& (255 ^^^ m) := by
  rw [Nat.and_distrib_right, h, Nat.and_assoc, Nat.and_self, Nat.or_zero]

theorem or_bit6 (o : Nat) (ho : o < 256) : (o &&& (255 ^^^ 64)) ||| 64 = o ||| 64 := by
  apply Nat.eq_of_testBit_eq
  intro i
  simp only [Nat.testBit_or, Nat.testBit_and, Nat.testBit_xor, testBit_255]
  by_cases hi : i < 8
  · cases o.testBit i <;> cases Nat.testBit 64 i <;> simp [hi]
  · simp [testBit_byte_high o i ho (by omega)]

theorem byte_cast_nonneg (x : Nat) : ¬ ((x : Int) % 256 < 0) := by omega

theorem byte_cast_toNat (x : Nat) : ((x : Int) % 256).toNat = x % 256 := by omega

/-! ## What the register operations return -/

theorem reg_read_frame (s : State) (reg : Nat) (hl : s.io_lock = false) :
    ∃ ret s1 r, rt5033_reg_read s reg = some (ret, s1) ∧
      s1 = { s with script := s1.script, log := s1.log } ∧
      s1.log = s.log ++ [Event.mutex_lock, Event.read_byte reg r, Event.mutex_unlock] := by
  rcases hs : s.script with _ | ⟨a, rest⟩
  · simp [rt5033_reg_read, mutex_lock, mutex_unlock, rt5033_read_device,
      i2c_smbus_read_byte_data, nextFault, State.emit, hl, hs, byte_cast_nonneg]
    refine ⟨_, _, ⟨rfl, rfl⟩, ?_⟩
    simp
  · by_cases ha : a < 0 <;>
    simp [rt5033_reg_read, mutex_lock, mutex_unlock, rt5033_read_device,
        i2c_smbus_read_byte_data, nextFault, State.emit, hl, hs, ha, byte_cast_nonneg] <;>
    refine ⟨_, _, ⟨rfl, rfl⟩, ?_⟩ <;>
    simp

theorem assign_bits_frame (s : State) (reg mask data : Nat) (hl : s.io_lock = false) :
    ∃ ret s1, rt5033_assign_bits s reg mask data = some (ret, s1) ∧
      s1 = { s with regs := s1.regs, script := s1.script, log := s1.log } ∧
      ((∃ r, r < 0 ∧ ret = r ∧ s1.log = s.log ++ [Event.assign_bits reg (mask % 256) (data % 256),
          Event.mutex_lock, Event.read_byte reg r, Event.mutex_unlock]) ∨
        ∃ r v r1, ret = r1 ∧ s1.log = s.log ++ [Event.assign_bits reg (mask % 256) (data % 256),
          Event.mutex_lock, Event.read_byte reg r, Event.write_byte reg v r1,
          Event.mutex_unlock]) := by
  rcases hs : s.script with _ | ⟨a, _ | ⟨b, rest⟩⟩
  · simp [rt5033_assign_bits, mutex_lock, mutex_unlock, rt5033_read_device,
      i2c_smbus_read_byte_data, i2c_smbus_write_byte_data, nextFault, State.emit, hl, hs,
      byte_cast_nonneg]
    refine ⟨_, _, ⟨rfl, rfl⟩, ?_⟩
    simp
  · by_cases ha : a < 0 <;>
    simp [rt5033_assign_bits, mutex_lock, mutex_unlock, rt5033_read_device,
      i2c_smbus_read_byte_data, i2c_smbus_write_byte_data, nextFault, State.emit, hl, hs,
      byte_cast_nonneg, ha] <;>
    refine ⟨_, _, ⟨rfl, rfl⟩, ?_⟩ <;>
    simp [ha]
  · by_cases ha : a < 0 <;> by_cases hb : b < 0 <;>
    simp [rt5033_assign_bits, mutex_lock, mutex_unlock, rt5033_read_device,
      i2c_smbus_read_byte_data, i2c_smbus_write_byte_data, nextFault, State.emit, hl, hs,
      byte_cast_nonneg, ha, hb] <;>
    refine ⟨_, _, ⟨rfl, rfl⟩, ?_⟩ <;>
    simp [ha]

theorem assign_bits_ok (s : State) (reg mask data : Nat) (hl : s.io_lock = false)
    (hok : transfersOk 2 s.script = true) :
    ∃ s1, rt5033_assign_bits s reg mask data = some (0, s1) ∧
      s1.regs = Function.update s.regs (reg % 256)
        ((s.regs (reg % 256) % 256 &&& (255 ^^^ (mask % 256))) ||| data % 256) ∧
      s1.io_lock = false ∧ s1.script = s.script.drop 2 ∧ s1.phase = s.phase ∧
      s1.children = s.children := by
  have hv := Nat.mod_eq_of_lt (assigned_lt (s.regs (reg % 256)) (mask % 256) data)
  rcases hs : s.script with _ | ⟨a, _ | ⟨b, rest⟩⟩ <;>
    simp [transfersOk, hs] at hok <;>
    simp [rt5033_assign_bits, mutex_lock, mutex_unlock, rt5033_read_device,
      i2c_smbus_read_byte_data, i2c_smbus_write_byte_data, nextFault, State.emit, hl, hs,
      hok, hv, not_lt.mpr, byte_cast_nonneg, byte_cast_toNat]

/-! ## Lemmas on logs and on the stages of bring-up -/

theorem regAttempts_append (a b : List Event) :
    regAttempts (a ++ b) = regAttempts a ++ regAttempts b := by
  induction a with
  | nil => rfl
  | cons e es ih => cases e <;> simp [regAttempts, ih]

theorem clearedBeforeReg_true (l : List Event) : clearedBeforeReg true l = true := by
  induction l with
  | nil => rfl
  | cons e es ih => cases e <;> simp [clearedBeforeReg, ih]

theorem clearedBeforeReg_cons (e : Event) (b : Bool) (h : regAttempts [e] = [])
    (rest : List Event) :
    clearedBeforeReg b (e :: rest) = clearedBeforeReg (b || clearsManualReset e) rest := by
  cases e <;> first | rfl | simp [regAttempts] at h

theorem clearedBeforeReg_append (l1 l2 : List Event) (b : Bool) (h : regAttempts l1 = [])
    (hc : b = true ∨ ∃ e ∈ l1, clearsManualReset e = true) :
    clearedBeforeReg b (l1 ++ l2) = true := by
  induction l1 generalizing b with
  | nil =>
    rcases hc with rfl | hc
    · exact clearedBeforeReg_true _
    · simp at hc
  | cons e es ih =>
    have happ : regAttempts [e] ++ regAttempts es = [] := by
      rw [← regAttempts_append]; exact h
    have he : regAttempts [e] = [] := (List.append_eq_nil.mp happ).1
    have hes : regAttempts es = [] := (List.append_eq_nil.mp happ).2
    rw [List.cons_append, clearedBeforeReg_cons e b he]
    apply ih _ hes
    rcases hc with rfl | ⟨x, hx, hxc⟩
    · left; simp
    · rcases List.mem_cons.mp hx with rfl | hx
      · left; simp [hxc]
      · right; exact ⟨x, hx, hxc⟩

theorem manual_reset_spec (env : Env) (s : State) (hl : s.io_lock = false) :
    ∃ t pre, probe_manual_reset env s = some
        (if env.init_irq_ret < 0 then err_init_irq t env.init_irq_ret
         else probe_regulator env { t with phase := Lifecycle.InterruptsBound } env.init_irq_ret) ∧
      t = { s with regs := t.regs, script := t.script, log := t.log } ∧
      t.log = s.log ++ pre ∧ regAttempts pre = [] ∧
      (∃ e ∈ pre, clearsManualReset e = true) := by
  obtain ⟨r1, s1, x1, h1, hf1, hl1⟩ := reg_read_frame s 0x47 hl
  have hl1' : s1.io_lock = false := by rw [hf1]; exact hl
  obtain ⟨r2, s2, h2, hf2, hl2⟩ := assign_bits_frame s1 0x47 (1 <<< 3) 0 hl1'
  have hp : probe_manual_reset env s = some
        (if env.init_irq_ret < 0 then
          err_init_irq (s2.emit (Event.init_irq env.init_irq_ret)) env.init_irq_ret
         else probe_regulator env
          { s2.emit (Event.init_irq env.init_irq_ret) with phase := Lifecycle.InterruptsBound }
          env.init_irq_ret) := by
    simp only [probe_manual_reset, h1, rt5033_clr_bits, h2, rt5033_init_irq]
    split <;> rfl
  have hfr : s2.emit (Event.init_irq env.init_irq_ret) =
      { s with regs := s2.regs, script := s2.script,
               log := s2.log ++ [Event.init_irq env.init_irq_ret] } := by
    rw [hf2, hf1]; rfl
  rcases hl2 with ⟨r, _, _, hlog⟩ | ⟨r, v, r3, _, hlog⟩
  · refine ⟨_, [Event.mutex_lock, Event.read_byte 0x47 x1, Event.mutex_unlock,
      Event.assign_bits 0x47 8 0, Event.mutex_lock, Event.read_byte 0x47 r,
      Event.mutex_unlock, Event.init_irq env.init_irq_ret], hp, ?_, ?_, rfl, ?_⟩
    · rw [hfr]
    · simp [State.emit, hlog, hl1]
    · exact ⟨Event.assign_bits 0x47 8 0, by simp, rfl⟩
  · refine ⟨_, [Event.mutex_lock, Event.read_byte 0x47 x1, Event.mutex_unlock,
      Event.assign_bits 0x47 8 0, Event.mutex_lock, Event.read_byte 0x47 r,
      Event.write_byte 0x47 v r3, Event.mutex_unlock, Event.init_irq env.init_irq_ret],
      hp, ?_, ?_, rfl, ?_⟩
    · rw [hfr]
    · simp [State.emit, hlog, hl1]
    · exact ⟨Event.assign_bits 0x47 8 0, by simp, rfl⟩

theorem probe_regulator_attempts (env : Env) (t : State) (ret : Int) :
    regAttempts (probe_regulator env t ret).2.log =
      regAttempts t.log ++ attemptsOf env (enabledCategories env) := by
  rcases env with ⟨c1, c2, c3, v, k, ia, ii, add⟩
  by_cases h1 : add Category.regulator < 0 <;> by_cases h2 : add Category.fled < 0 <;>
    by_cases h3 : add Category.charger < 0 <;>
    cases c1 <;> cases c2 <;> cases c3 <;>
    simp [probe_regulator, probe_fled, probe_charger, mfd_add_devices, err_add_fled_devs,
      err_init_irq, mfd_remove_devices, State.emit, enabledCategories, h1, h2, h3,
      regAttempts, regAttempts_append, attemptsOf]

theorem probe_regulator_log (env : Env) (t : State) (ret : Int) :
    ∃ evs, (probe_regulator env t ret).2.log = t.log ++ evs := by
  rcases env with ⟨c1, c2, c3, v, k, ia, ii, add⟩
  by_cases h1 : add Category.regulator < 0 <;> by_cases h2 : add Category.fled < 0 <;>
    by_cases h3 : add Category.charger < 0 <;>
    cases c1 <;> cases c2 <;> cases c3 <;>
    simp [probe_regulator, probe_fled, probe_charger, mfd_add_devices, err_add_fled_devs,
      err_init_irq, mfd_remove_devices, State.emit, h1, h2, h3]

theorem probe_regulator_fail (env : Env) (t : State) (ret : Int) (hret : ¬ ret < 0)
    (h : (probe_regulator env t ret).1 < 0) :
    (t.children = [] → (probe_regulator env t ret).2.children = []) ∧
    (probe_regulator env t ret).2.chip_alloc = false ∧
    (probe_regulator env t ret).2.io_lock_init = false ∧
    (probe_regulator env t ret).2.wake_lock_init = false ∧
    (probe_regulator env t ret).2.phase = Lifecycle.Failed ∧
    (probe_regulator env t ret).2.irq_descs = t.irq_descs ∧
    (∃ c ∈ enabledCategories env, env.mfd_add_ret c < 0) := by
  rcases env with ⟨c1, c2, c3, v, k, ia, ii, add⟩
  by_cases h1 : add Category.regulator < 0 <;> by_cases h2 : add Category.fled < 0 <;>
    by_cases h3 : add Category.charger < 0 <;>
    cases c1 <;> cases c2 <;> cases c3 <;>
    simp [probe_regulator, probe_fled, probe_charger, mfd_add_devices, err_add_fled_devs,
      err_init_irq, mfd_remove_devices, State.emit, enabledCategories, h1, h2, h3, hret] at h ⊢

theorem probe_regulator_ok (env : Env) (t : State) (ret : Int)
    (h : ¬ (probe_regulator env t ret).1 < 0) :
    (probe_regulator env t ret).2.children =
      t.children ++ (enabledCategories env).flatMap cells ∧
    (probe_regulator env t ret).2.phase = Lifecycle.SubdevicesAttached ∧
    (probe_regulator env t ret).2.chip_alloc = t.chip_alloc ∧
    (probe_regulator env t ret).2.irq_descs = t.irq_descs ∧
    (∀ c ∈ enabledCategories env, ¬ env.mfd_add_ret c < 0) := by
  rcases env with ⟨c1, c2, c3, v, k, ia, ii, add⟩
  by_cases h1 : add Category.regulator < 0 <;> by_cases h2 : add Category.fled < 0 <;>
    by_cases h3 : add Category.charger < 0 <;>
    cases c1 <;> cases c2 <;> cases c3 <;>
    simp [probe_regulator, probe_fled, probe_charger, mfd_add_devices, err_add_fled_devs,
      err_init_irq, mfd_remove_devices, State.emit, enabledCategories, h1, h2, h3,
      cells] at h ⊢ <;>
    omega

theorem probe_regulator_code (env : Env) (t : State) (ret : Int) :
    ∀ p ∈ attemptsOf env (enabledCategories env), p.2 < 0 →
      (probe_regulator env t ret).1 = p.2 ∧ p.2 = env.mfd_add_ret p.1 := by
  rcases env with ⟨c1, c2, c3, v, k, ia, ii, add⟩
  by_cases h1 : add Category.regulator < 0 <;> by_cases h2 : add Category.fled < 0 <;>
    by_cases h3 : add Category.charger < 0 <;>
    cases c1 <;> cases c2 <;> cases c3 <;>
    simp [probe_regulator, probe_fled, probe_charger, mfd_add_devices, err_add_fled_devs,
      err_init_irq, mfd_remove_devices, State.emit, enabledCategories, h1, h2, h3,
      attemptsOf]

theorem attemptsOf_fst (env : Env) (cs : List Category) :
    (attemptsOf env cs).map Prod.fst <+: cs := by
  induction cs with
  | nil => simp [attemptsOf]
  | cons c cs ih =>
    by_cases h : env.mfd_add_ret c < 0
    · simp [attemptsOf, h]
    · simp [attemptsOf, h, List.cons_prefix_cons, ih]

theorem attemptsOf_stops (env : Env) (cs : List Category) :
    stopsAtFailure (attemptsOf env cs) = true := by
  induction cs with
  | nil => rfl
  | cons c cs ih =>
    by_cases h : env.mfd_add_ret c < 0
    · simp [attemptsOf, h, stopsAtFailure]
    · simp [attemptsOf, h, stopsAtFailure, ih]

theorem attemptsOf_all (env : Env) (cs : List Category)
    (h : ∀ c ∈ cs, ¬ env.mfd_add_ret c < 0) : (attemptsOf env cs).map Prod.fst = cs := by
  induction cs with
  | nil => rfl
  | cons c cs ih =>
    have hc : ¬ env.mfd_add_ret c < 0 := h c (List.mem_cons_self _ _)
    have hcs : ∀ x ∈ cs, ¬ env.mfd_add_ret x < 0 := fun x hx => h x (List.mem_cons_of_mem _ hx)
    simp [attemptsOf, hc, ih hcs]

theorem init_chip_frame (env : Env) (s : State) :
    ∃ evs, probe_init_chip env s =
      { s with chip_irq_base := s.pdata_irq_base, io_lock_init := true, io_lock := false,
               wake_lock_init := true, clientdata := some s.chip_id,
               irq_domains := (probe_init_chip env s).irq_domains,
               log := s.log ++ evs } ∧ regAttempts evs = [] := by
  cases h : env.linux_ge_3_4
  · exact ⟨[Event.mutex_init, Event.wake_lock_init], by simp [probe_init_chip, State.emit, h], rfl⟩
  · exact ⟨[Event.irq_domain_add_legacy s.pdata_irq_base, Event.mutex_init,
      Event.wake_lock_init], by simp [probe_init_chip, State.emit, h], rfl⟩

theorem probe_front (env : Env) (s : State) (hk : env.kzalloc_ok = true)
    (hf : s.functionality &&& fullFunctionality = fullFunctionality)
    (hb : ¬ (if s.pdata_irq_base < 0 then env.irq_alloc_ret else s.pdata_irq_base) < 0) :
    ∃ t pre, rt5033_mfd_probe env s = some
        (if env.init_irq_ret < 0 then err_init_irq t env.init_irq_ret
         else probe_regulator env { t with phase := Lifecycle.InterruptsBound } env.init_irq_ret) ∧
      t.children = s.children ∧ t.chip_alloc = true ∧ t.io_lock_init = true ∧
      t.wake_lock_init = true ∧
      t.irq_descs = (if s.pdata_irq_base < 0 then env.irq_alloc_ret :: s.irq_descs
        else s.irq_descs) ∧
      t.log = s.log ++ pre ∧ regAttempts pre = [] ∧
      (∃ e ∈ pre, clearsManualReset e = true) := by
  have hf' : s.functionality &&& (I2C_FUNC_SMBUS_BYTE_DATA ||| I2C_FUNC_SMBUS_WORD_DATA |||
      I2C_FUNC_SMBUS_I2C_BLOCK) = I2C_FUNC_SMBUS_BYTE_DATA ||| I2C_FUNC_SMBUS_WORD_DATA |||
      I2C_FUNC_SMBUS_I2C_BLOCK := hf
  by_cases hp : s.pdata_irq_base < 0
  · simp only [hp, if_true] at hb
    obtain ⟨evs, hinit, hevs⟩ := init_chip_frame env (irq_alloc_descs env
      { s.emit (Event.kzalloc env.kzalloc_ok) with
        chip_id := s.chip_id + 1,
        chip_alloc := true, chip_irq_base := 0, io_lock_init := false, io_lock := false,
        wake_lock_init := false, phase := Lifecycle.BusValidated })
    obtain ⟨t, pre, hm, hfr, hlog, hpre, hclr⟩ := manual_reset_spec env _
      (show (probe_init_chip env (irq_alloc_descs env
      { s.emit (Event.kzalloc env.kzalloc_ok) with
        chip_id := s.chip_id + 1,
        chip_alloc := true, chip_irq_base := 0, io_lock_init := false, io_lock := false,
        wake_lock_init := false, phase := Lifecycle.BusValidated })).io_lock = false by
        rw [hinit])
    refine ⟨t, [Event.kzalloc env.kzalloc_ok, Event.irq_alloc_descs env.irq_alloc_ret] ++ evs
      ++ pre, ?_, ?_, ?_, ?_, ?_, ?_, ?_, ?_, ?_⟩
    · rw [← hm]
      simp [rt5033_mfd_probe, hk, hf', hp, hb, irq_alloc_descs, State.emit]
    · rw [hfr, hinit]; simp [irq_alloc_descs, State.emit]
    · rw [hfr, hinit]; simp [irq_alloc_descs, State.emit]
    · rw [hfr, hinit]
    · rw [hfr, hinit]
    · rw [hfr, hinit]; simp [irq_alloc_descs, State.emit, hp, hb]
    · rw [hlog, hinit]; simp [irq_alloc_descs, State.emit]
    · simp [regAttempts_append, hevs, hpre, regAttempts]
    · obtain ⟨e, he, hec⟩ := hclr
      exact ⟨e, by simp [he], hec⟩
  · simp only [hp, if_false] at hb
    obtain ⟨evs, hinit, hevs⟩ := init_chip_frame env
      { s.emit (Event.kzalloc env.kzalloc_ok) with
        chip_id := s.chip_id + 1,
        chip_alloc := true, chip_irq_base := 0, io_lock_init := false, io_lock := false,
        wake_lock_init := false, phase := Lifecycle.BusValidated }
    obtain ⟨t, pre, hm, hfr, hlog, hpre, hclr⟩ := manual_reset_spec env _
      (show (probe_init_chip env
      { s.emit (Event.kzalloc env.kzalloc_ok) with
        chip_id := s.chip_id + 1,
        chip_alloc := true, chip_irq_base := 0, io_lock_init := false, io_lock := false,
        wake_lock_init := false, phase := Lifecycle.BusValidated }).io_lock = false by
        rw [hinit])
    refine ⟨t, [Event.kzalloc env.kzalloc_ok] ++ evs ++ pre, ?_, ?_, ?_, ?_, ?_, ?_, ?_, ?_, ?_⟩
    · rw [← hm]
      simp [rt5033_mfd_probe, hk, hf', hp, State.emit]
    · rw [hfr, hinit]; simp [State.emit]
    · rw [hfr, hinit]
    · rw [hfr, hinit]
    · rw [hfr, hinit]
    · rw [hfr, hinit]; simp [State.emit, hp]
    · rw [hlog, hinit]; simp [State.emit]
    · simp [regAttempts_append, hevs, hpre, regAttempts]
    · obtain ⟨e, he, hec⟩ := hclr
      exact ⟨e, by simp [he], hec⟩

/-! ## The claims -/

/-- C1, counterexample.  On a device whose registers are all 0, with both
transfers succeeding, `rt5033_assign_bits(0x10, mask 0x01, value 0x02)`
returns 0 and leaves register 0x10 holding 2: bit 1, which is outside the
mask, has changed, whereas clearing the mask bits and setting the bits of
`value & mask` would leave 0. -/
theorem assign_bits_unmasked_counterexample :
    transfersOk 2 (blankDevice [] 0).script = true ∧
    (rt5033_assign_bits (blankDevice [] 0) 0x10 0x01 0x02).map
      (fun r => (r.1, r.2.regs 0x10)) = some (0, 2) ∧
    readModifyWrite_spec ((blankDevice [] 0).regs 0x10) 0x01 0x02 = 0 := by
  decide

/-- C1, amended.  When the bus lock is free and both transfers succeed,
`rt5033_assign_bits(reg, mask, value)` returns 0 and leaves the register
holding `(old AND NOT mask) OR value`, every other register unchanged.  When
`value` has no bit outside `mask`, that byte is `(old AND NOT mask) OR
(value AND mask)` and the bits outside `mask` are those of the old byte. -/
theorem assign_bits_result (s : State) (reg mask value : Nat) (hl : s.io_lock = false)
    (hok : transfersOk 2 s.script = true) :
    ∃ s1, rt5033_assign_bits s reg mask value = some (0, s1) ∧
      s1.regs (reg % 256) =
        ((s.regs (reg % 256) % 256) &&& (255 ^^^ (mask % 256))) ||| (value % 256) ∧
      (∀ a, a ≠ reg % 256 → s1.regs a = s.regs a) ∧
      ((value % 256) &&& (255 ^^^ (mask % 256)) = 0 →
        s1.regs (reg % 256) =
          readModifyWrite_spec (s.regs (reg % 256) % 256) (mask % 256) (value % 256) ∧
        s1.regs (reg % 256) &&& (255 ^^^ (mask % 256)) =
          (s.regs (reg % 256) % 256) &&& (255 ^^^ (mask % 256))) := by
  obtain ⟨s1, h1, hregs, -, -, -, -⟩ := assign_bits_ok s reg mask value hl hok
  refine ⟨s1, h1, ?_, ?_, ?_⟩
  · rw [hregs]; simp
  · intro a ha
    rw [hregs]; simp [Function.update, ha]
  · intro hin
    have hv : s1.regs (reg % 256) =
        ((s.regs (reg % 256) % 256) &&& (255 ^^^ (mask % 256))) ||| (value % 256) := by
      rw [hregs]; simp
    refine ⟨?_, ?_⟩
    · rw [hv, readModifyWrite_spec,
        and_mask_of_inside (value % 256) (mask % 256) (Nat.mod_lt _ (by norm_num)) hin]
    · rw [hv]
      exact outside_unchanged _ _ _ hin

/-- C1, the amended statement at work: mask 0x0F and value 0x05 on a device
whose registers are all 0. -/
theorem assign_bits_result_witness :
    (blankDevice [] 0).io_lock = false ∧ transfersOk 2 (blankDevice [] 0).script = true ∧
    ∃ s1, rt5033_assign_bits (blankDevice [] 0) 0x10 0x0F 0x05 = some (0, s1) ∧
      s1.regs (0x10 % 256) =
        (((blankDevice [] 0).regs (0x10 % 256) % 256) &&& (255 ^^^ (0x0F % 256))) |||
          (0x05 % 256) ∧
      (∀ a, a ≠ 0x10 % 256 → s1.regs a = (blankDevice [] 0).regs a) ∧
      ((0x05 % 256) &&& (255 ^^^ (0x0F % 256)) = 0 →
        s1.regs (0x10 % 256) =
          readModifyWrite_spec ((blankDevice [] 0).regs (0x10 % 256) % 256) (0x0F % 256)
            (0x05 % 256) ∧
        s1.regs (0x10 % 256) &&& (255 ^^^ (0x0F % 256)) =
          ((blankDevice [] 0).regs (0x10 % 256) % 256) &&& (255 ^^^ (0x0F % 256))) :=
  ⟨rfl, rfl, assign_bits_result (blankDevice [] 0) 0x10 0x0F 0x05 rfl rfl⟩

theorem transfersOk_two_of_four (l : List Int) (h : transfersOk 4 l = true) :
    transfersOk 2 l = true ∧ transfersOk 2 (l.drop 2) = true := by
  rcases l with _ | ⟨a, _ | ⟨b, _ | ⟨c, _ | ⟨d, rest⟩⟩⟩⟩ <;>
    simp_all [transfersOk]

/-- C6.  When the bus lock is free and all four transfers succeed, applying
`rt5033_assign_bits(reg, mask, value)` twice in a row leaves the register
file, and so the final register byte, as one application leaves it. -/
theorem assign_bits_idempotent (s : State) (reg mask value : Nat) (hl : s.io_lock = false)
    (hok : transfersOk 4 s.script = true) :
    ∃ s1 s2, rt5033_assign_bits s reg mask value = some (0, s1) ∧
      rt5033_assign_bits s1 reg mask value = some (0, s2) ∧
      s2.regs (reg % 256) = s1.regs (reg % 256) ∧ s2.regs = s1.regs := by
  obtain ⟨h2a, h2b⟩ := transfersOk_two_of_four s.script hok
  obtain ⟨s1, h1, hregs1, hl1, hscr1, -, -⟩ := assign_bits_ok s reg mask value hl h2a
  obtain ⟨s2, h2, hregs2, -, -, -, -⟩ :=
    assign_bits_ok s1 reg mask value hl1 (by rw [hscr1]; exact h2b)
  have hv : s1.regs (reg % 256) =
      ((s.regs (reg % 256) % 256) &&& (255 ^^^ (mask % 256))) ||| (value % 256) := by
    rw [hregs1]; simp
  have hsame : s2.regs = s1.regs := by
    rw [hregs2, hv, Nat.mod_eq_of_lt (assigned_lt _ _ _), and_or_absorb, ← hv]
    exact Function.update_eq_self _ _
  exact ⟨s1, s2, h1, h2, by rw [hsame], hsame⟩

/-- C6 at work: register 0x41 of the device left by a successful bring-up,
mask 0x0F, value 0x05. -/
theorem assign_bits_idempotent_witness :
    attachedDevice.io_lock = false ∧ transfersOk 4 attachedDevice.script = true ∧
    ∃ s1 s2, rt5033_assign_bits attachedDevice 0x41 0x0F 0x05 = some (0, s1) ∧
      rt5033_assign_bits s1 0x41 0x0F 0x05 = some (0, s2) ∧
      s2.regs (0x41 % 256) = s1.regs (0x41 % 256) ∧ s2.regs = s1.regs :=
  ⟨by decide, by decide, assign_bits_idempotent attachedDevice 0x41 0x0F 0x05 (by decide) (by decide)⟩

/-- C7, counterexample.  On a device that was never brought up (phase
`Uninitialized`, client data NULL) and on a device that was brought up and
removed (phase `Removed`, handle freed), with the bus lock free and transfers
that would succeed, `rt5033_shutdown` does not return a state: it reaches
`chip->io_lock` through a handle that is not there, and register 0x41 is not
written. -/
theorem shutdown_without_handle_counterexample :
    (blankDevice [] fullFunctionality).phase = Lifecycle.Uninitialized ∧
    (blankDevice [] fullFunctionality).io_lock = false ∧
    transfersOk 2 (blankDevice [] fullFunctionality).script = true ∧
    (rt5033_shutdown (blankDevice [] fullFunctionality)).isSome = false ∧
    removedDevice.phase = Lifecycle.Removed ∧
    removedDevice.io_lock = false ∧
    transfersOk 2 removedDevice.script = true ∧
    removedDevice.regs 0x41 = 0 ∧
    (rt5033_shutdown removedDevice).isSome = false := by
  decide

/-- C7, amended.  In every state in which the chip handle is live (the client
data points at it and it has not been freed), whatever the register file,
when the bus lock is free and both transfers succeed, `rt5033_shutdown`
leaves register 0x41 holding its previous byte OR 0x40 and every other
register unchanged (and does not change the phase). -/
theorem shutdown_sets_safe_ldo (s : State) (hlive : chipLive s = true)
    (hl : s.io_lock = false) (hok : transfersOk 2 s.script = true) :
    ∃ s1, rt5033_shutdown s = some s1 ∧
      s1.regs 0x41 = (s.regs 0x41 % 256) ||| 0x40 ∧
      (∀ a, a ≠ 0x41 → s1.regs a = s.regs a) ∧ s1.phase = s.phase := by
  obtain ⟨s1, h1, hregs, -, -, hph, -⟩ := assign_bits_ok s RT5033_REGULATOR_REG_OUTPUT_EN
    RT5033_REGULATOR_EN_MASK_LDO_SAFE RT5033_REGULATOR_EN_MASK_LDO_SAFE hl hok
  refine ⟨s1, ?_, ?_, ?_, hph⟩
  · simp [rt5033_shutdown, hlive, rt5033_set_bits, h1]
  · rw [hregs]
    have h := or_bit6 (s.regs 0x41 % 256) (Nat.mod_lt _ (by norm_num))
    simpa [RT5033_REGULATOR_REG_OUTPUT_EN, RT5033_REGULATOR_EN_MASK_LDO_SAFE] using h
  · intro a ha
    rw [hregs]
    simp [Function.update, ha, RT5033_REGULATOR_REG_OUTPUT_EN]

/-- C7, the amended statement at work: the shutdown hook on the device left by
a successful bring-up, whose phase is `SubdevicesAttached` and whose register
0x41 holds 0: the register then holds 0x40. -/
theorem shutdown_sets_safe_ldo_witness :
    attachedBlank.phase = Lifecycle.SubdevicesAttached ∧
    chipLive attachedBlank = true ∧
    attachedBlank.io_lock = false ∧ transfersOk 2 attachedBlank.script = true ∧
    attachedBlank.regs 0x41 = 0x00 ∧
    ∃ s1, rt5033_shutdown attachedBlank = some s1 ∧
      s1.regs 0x41 = 0x40 ∧
      (∀ a, a ≠ 0x41 → s1.regs a = attachedBlank.regs a) ∧
      s1.phase = attachedBlank.phase := by
  obtain ⟨s1, h1, h2, h3, h4⟩ :=
    shutdown_sets_safe_ldo attachedBlank (by decide) (by decide) (by decide)
  have h0 : attachedBlank.regs 0x41 = 0x00 := by decide
  refine ⟨by decide, by decide, by decide, by decide, h0, s1, h1, ?_, h3, h4⟩
  rw [h2, h0]
  decide

theorem block_read_frame (s : State) (reg : Nat) (bytes : Int) (dest : List Nat)
    (hl : s.io_lock = false) :
    ∃ ret dest1 s1 e, rt5033_block_read_device s reg bytes dest = some (ret, dest1, s1) ∧
      s1.io_lock = false ∧ isTransfer e = true ∧
      s1.log = s.log ++ [Event.mutex_lock, e, Event.mutex_unlock] := by
  rcases hs : s.script with _ | ⟨a, rest⟩
  · by_cases hw : bytes > 1 <;>
    simp [rt5033_block_read_device, mutex_lock, mutex_unlock, rt5033_read_device,
      i2c_smbus_read_i2c_block_data, i2c_smbus_read_byte_data, nextFault, State.emit, hl,
      hs, hw, byte_cast_nonneg] <;>
    refine ⟨_, _, _, ⟨rfl, rfl, rfl⟩, rfl, _, ?_, rfl⟩ <;>
    rfl
  · by_cases hw : bytes > 1 <;> by_cases ha : a < 0 <;>
    simp [rt5033_block_read_device, mutex_lock, mutex_unlock, rt5033_read_device,
      i2c_smbus_read_i2c_block_data, i2c_smbus_read_byte_data, nextFault, State.emit, hl,
      hs, hw, ha, byte_cast_nonneg] <;>
    refine ⟨_, _, _, ⟨rfl, rfl, rfl⟩, rfl, _, ?_, rfl⟩ <;>
    rfl

theorem block_write_frame (s : State) (reg : Nat) (bytes : Int) (src : List Nat)
    (hl : s.io_lock = false) :
    ∃ ret s1 e, rt5033_block_write_device s reg bytes src = some (ret, s1) ∧
      s1.io_lock = false ∧ isTransfer e = true ∧
      s1.log = s.log ++ [Event.mutex_lock, e, Event.mutex_unlock] := by
  rcases hs : s.script with _ | ⟨a, rest⟩
  · by_cases hw : bytes > 1 <;>
    simp [rt5033_block_write_device, mutex_lock, mutex_unlock,
      rt5033_write_device, i2c_smbus_write_i2c_block_data, i2c_smbus_write_byte_data,
      nextFault, State.emit, hl, hs, hw] <;>
    refine ⟨_, _, ⟨rfl, rfl⟩, rfl, _, ?_, rfl⟩ <;>
    rfl
  · by_cases hw : bytes > 1 <;> by_cases ha : a < 0 <;>
    simp [rt5033_block_write_device, mutex_lock, mutex_unlock,
      rt5033_write_device, i2c_smbus_write_i2c_block_data, i2c_smbus_write_byte_data,
      nextFault, State.emit, hl, hs, hw, ha] <;>
    refine ⟨_, _, ⟨rfl, rfl⟩, rfl, _, ?_, rfl⟩ <;>
    rfl

theorem reg_write_frame (s : State) (reg data : Nat) (hl : s.io_lock = false) :
    ∃ ret s1 e, rt5033_reg_write s reg data = some (ret, s1) ∧
      s1.io_lock = false ∧ isTransfer e = true ∧
      s1.log = s.log ++ [Event.mutex_lock, e, Event.mutex_unlock] := by
  rcases hs : s.script with _ | ⟨a, rest⟩
  · simp [rt5033_reg_write, mutex_lock, mutex_unlock, i2c_smbus_write_byte_data,
      nextFault, State.emit, hl, hs]
    refine ⟨_, _, ⟨rfl, rfl⟩, rfl, _, ?_, rfl⟩
    rfl
  · by_cases ha : a < 0 <;>
    simp [rt5033_reg_write, mutex_lock, mutex_unlock, i2c_smbus_write_byte_data,
      nextFault, State.emit, hl, hs, ha] <;>
    refine ⟨_, _, ⟨rfl, rfl⟩, rfl, _, ?_, rfl⟩ <;>
    rfl

/-- C5.  Each of the five register operations, started with the bus lock
free, returns, whatever the outcome of its transfers, with the lock free.
The events it adds to the log are: events that neither touch the lock nor
transfer anything (the entry into `rt5033_assign_bits`, or none), then one
`mutex_lock`, then its transfers and nothing else (at least one), then one
`mutex_unlock` as the last event.  So the lock is taken once, before the
first transfer, held across all the transfers, and released on every exit
path. -/
theorem bus_ops_hold_lock (op : BusOp) (s : State) (hl : s.io_lock = false) :
    ∃ ret s1 pre xfers, op.run s = some (ret, s1) ∧ s1.io_lock = false ∧
      s1.log = s.log ++ (pre ++ Event.mutex_lock :: (xfers ++ [Event.mutex_unlock])) ∧
      (∀ e ∈ pre, isTransfer e = false ∧ isLockEvent e = false) ∧
      xfers ≠ [] ∧ (∀ e ∈ xfers, isTransfer e = true) := by
  cases op with
  | block_read reg bytes dest =>
    obtain ⟨ret, dest1, s1, e, h1, hl1, he, hlog⟩ := block_read_frame s reg bytes dest hl
    exact ⟨ret, s1, [], [e], by simp [BusOp.run, h1], hl1, by simpa using hlog, by simp,
      by simp, by simpa using he⟩
  | block_write reg bytes src =>
    obtain ⟨ret, s1, e, h1, hl1, he, hlog⟩ := block_write_frame s reg bytes src hl
    exact ⟨ret, s1, [], [e], h1, hl1, by simpa using hlog, by simp, by simp,
      by simpa using he⟩
  | reg_read reg =>
    obtain ⟨ret, s1, r, h1, hfr, hlog⟩ := reg_read_frame s reg hl
    exact ⟨ret, s1, [], [Event.read_byte reg r], h1, by rw [hfr]; exact hl,
      by simpa using hlog, by simp, by simp, by simp [isTransfer]⟩
  | reg_write reg data =>
    obtain ⟨ret, s1, e, h1, hl1, he, hlog⟩ := reg_write_frame s reg data hl
    exact ⟨ret, s1, [], [e], h1, hl1, by simpa using hlog, by simp, by simp,
      by simpa using he⟩
  | assign_bits reg mask data =>
    obtain ⟨ret, s1, h1, hfr, hlog⟩ := assign_bits_frame s reg mask data hl
    rcases hlog with ⟨r, -, -, hlog⟩ | ⟨r, v, r1, -, hlog⟩
    · exact ⟨ret, s1, [Event.assign_bits reg (mask % 256) (data % 256)],
        [Event.read_byte reg r], h1, by rw [hfr]; exact hl, by simpa using hlog,
        by simp [isTransfer, isLockEvent], by simp, by simp [isTransfer]⟩
    · exact ⟨ret, s1, [Event.assign_bits reg (mask % 256) (data % 256)],
        [Event.read_byte reg r, Event.write_byte reg v r1], h1, by rw [hfr]; exact hl,
        by simpa using hlog, by simp [isTransfer, isLockEvent], by simp,
        by simp [isTransfer]⟩

/-- C5 at work: `rt5033_clr_bits` on register 0x47 when the read inside it
fails with -5: the lock is taken, the read is attempted, the lock is
released. -/
theorem bus_ops_hold_lock_witness :
    (blankDevice [-5] 0).io_lock = false ∧
    ∃ ret s1 pre xfers, (BusOp.assign_bits 0x47 0x08 0).run (blankDevice [-5] 0) =
        some (ret, s1) ∧ s1.io_lock = false ∧
      s1.log = (blankDevice [-5] 0).log ++
        (pre ++ Event.mutex_lock :: (xfers ++ [Event.mutex_unlock])) ∧
      (∀ e ∈ pre, isTransfer e = false ∧ isLockEvent e = false) ∧
      xfers ≠ [] ∧ (∀ e ∈ xfers, isTransfer e = true) :=
  ⟨rfl, bus_ops_hold_lock (BusOp.assign_bits 0x47 0x08 0) (blankDevice [-5] 0) rfl⟩

/-- C4, counterexample.  A bring-up that allocates the interrupt range at 100
and succeeds, followed by `rt5033_mfd_remove`: removal returns 0, no
sub-device is left, the chip handle is freed, and the range at 100 is still
allocated. -/
theorem remove_keeps_irq_range_counterexample :
    (rt5033_mfd_probe (allEnabled (fun _ => 0)) (blankDevice [] fullFunctionality)).map
      (fun r => (r.1, r.2.phase, r.2.irq_descs)) =
      some (0, Lifecycle.SubdevicesAttached, [100]) ∧
    ((rt5033_mfd_probe (allEnabled (fun _ => 0)) (blankDevice [] fullFunctionality)).bind
      (fun r => rt5033_mfd_remove r.2)).map
      (fun r => (r.1, r.2.children, r.2.chip_alloc, r.2.irq_descs)) =
      some (0, [], false, [100]) := by
  decide

/-- C4, amended.  From the `SubdevicesAttached` state, with the chip handle
live, `rt5033_mfd_remove` returns 0 and, on return, has unregistered all
sub-devices and released the chip handle (wake lock, mutex, memory), which is
live no more; the interrupt ranges that were allocated stay allocated and
`pdata->irq_base` keeps its value. -/
theorem remove_releases_handle (s : State) (_hph : s.phase = Lifecycle.SubdevicesAttached)
    (hlive : chipLive s = true) :
    ∃ s1, rt5033_mfd_remove s = some (0, s1) ∧
      s1.children = [] ∧ s1.wake_lock_init = false ∧ s1.io_lock_init = false ∧
      s1.chip_alloc = false ∧ chipLive s1 = false ∧
      s1.phase = Lifecycle.Removed ∧
      s1.irq_descs = s.irq_descs ∧ s1.pdata_irq_base = s.pdata_irq_base ∧
      s1.log = s.log ++ [Event.mfd_remove_devices,
        Event.wake_lock_destroy, Event.mutex_destroy, Event.kfree] := by
  simp only [rt5033_mfd_remove, hlive, if_true]
  refine ⟨_, rfl, ?_⟩
  simp [mfd_remove_devices, State.emit, chipLive]

/-- C4, the amended statement at work: removal of the device left by a
successful bring-up, whose interrupt range at 100 stays allocated. -/
theorem remove_releases_handle_witness :
    attachedBlank.phase = Lifecycle.SubdevicesAttached ∧ chipLive attachedBlank = true ∧
    attachedBlank.children = [Cell.ldo_safe, Cell.ldo1, Cell.dcdc1, Cell.fled, Cell.charger] ∧
    attachedBlank.irq_descs = [100] ∧
    ∃ s1, rt5033_mfd_remove attachedBlank = some (0, s1) ∧
      s1.children = [] ∧ s1.wake_lock_init = false ∧ s1.io_lock_init = false ∧
      s1.chip_alloc = false ∧ chipLive s1 = false ∧
      s1.phase = Lifecycle.Removed ∧
      s1.irq_descs = attachedBlank.irq_descs ∧
      s1.pdata_irq_base = attachedBlank.pdata_irq_base ∧
      s1.log = attachedBlank.log ++ [Event.mfd_remove_devices,
        Event.wake_lock_destroy, Event.mutex_destroy, Event.kfree] :=
  ⟨by decide, by decide, by decide, by decide,
    remove_releases_handle attachedBlank (by decide) (by decide)⟩

theorem and_of_and_or (f a b : Nat) (h : f &&& (a ||| b) = a ||| b) :
    f &&& a = a ∧ f &&& b = b := by
  constructor <;>
  · apply Nat.eq_of_testBit_eq
    intro i
    have hi := congrArg (fun x => x.testBit i) h
    simp only [Nat.testBit_and, Nat.testBit_or] at hi ⊢
    cases hf : f.testBit i <;> cases ha : a.testBit i <;> cases hb : b.testBit i <;>
      simp_all

/-- C8, counterexample.  The adapter has the byte and word capabilities but no
block transfer, and the allocation of the chip handle fails:
`rt5033_mfd_probe` returns -12 (`-ENOMEM`), not `-ENOSYS`; the allocation is
the only event. -/
theorem probe_alloc_failure_counterexample :
    (blankDevice [] 0x00780000).functionality &&& I2C_FUNC_SMBUS_I2C_BLOCK ≠
      I2C_FUNC_SMBUS_I2C_BLOCK ∧
    allocFails.kzalloc_ok = false ∧
    (rt5033_mfd_probe allocFails (blankDevice [] 0x00780000)).map
      (fun r => (r.1, r.2.log)) = some (-12, [Event.kzalloc false]) ∧
    (-12 : Int) ≠ -ENOSYS := by
  decide

/-- C8, amended.  When the adapter lacks the single-byte or the block transfer
capability, `rt5033_mfd_probe` returns `-ENOSYS` if the chip handle could be
allocated and `-ENOMEM` if it could not; either way it has made no bus
transfer (the script and the register file are untouched), allocated no
interrupt range and registered no sub-device: the only event of the attempt
is the allocation of the handle. -/
theorem probe_not_supported (env : Env) (s : State)
    (hcap : s.functionality &&& I2C_FUNC_SMBUS_BYTE_DATA ≠ I2C_FUNC_SMBUS_BYTE_DATA ∨
      s.functionality &&& I2C_FUNC_SMBUS_I2C_BLOCK ≠ I2C_FUNC_SMBUS_I2C_BLOCK) :
    ∃ s1, rt5033_mfd_probe env s =
        some (if env.kzalloc_ok = true then -ENOSYS else -ENOMEM, s1) ∧
      s1.regs = s.regs ∧ s1.script = s.script ∧
      s1.irq_descs = s.irq_descs ∧ s1.irq_domains = s.irq_domains ∧
      s1.pdata_irq_base = s.pdata_irq_base ∧ s1.children = s.children ∧
      s1.log = s.log ++ [Event.kzalloc env.kzalloc_ok] ∧
      s1.phase = Lifecycle.Failed := by
  have hne : s.functionality &&& (I2C_FUNC_SMBUS_BYTE_DATA ||| I2C_FUNC_SMBUS_WORD_DATA |||
      I2C_FUNC_SMBUS_I2C_BLOCK) ≠ I2C_FUNC_SMBUS_BYTE_DATA ||| I2C_FUNC_SMBUS_WORD_DATA |||
      I2C_FUNC_SMBUS_I2C_BLOCK := by
    intro h
    have h1 := and_of_and_or _ _ _ h
    have h2 := and_of_and_or _ _ _ h1.1
    rcases hcap with hc | hc
    · exact hc h2.1
    · exact hc h1.2
  cases hk : env.kzalloc_ok
  · simp [rt5033_mfd_probe, hk, State.emit]
  · simp [rt5033_mfd_probe, hk, hne, State.emit]

/-- C8, the amended statement at work: an adapter with the byte and word
capabilities but without block transfer, the allocation succeeding:
`-ENOSYS`. -/
theorem probe_not_supported_witness :
    ((blankDevice [] 0x00780000).functionality &&& I2C_FUNC_SMBUS_BYTE_DATA ≠
        I2C_FUNC_SMBUS_BYTE_DATA ∨
      (blankDevice [] 0x00780000).functionality &&& I2C_FUNC_SMBUS_I2C_BLOCK ≠
        I2C_FUNC_SMBUS_I2C_BLOCK) ∧
    ∃ s1, rt5033_mfd_probe (allEnabled (fun _ => 0)) (blankDevice [] 0x00780000) =
        some (-ENOSYS, s1) ∧
      s1.regs = (blankDevice [] 0x00780000).regs ∧
      s1.script = (blankDevice [] 0x00780000).script ∧
      s1.irq_descs = (blankDevice [] 0x00780000).irq_descs ∧
      s1.irq_domains = (blankDevice [] 0x00780000).irq_domains ∧
      s1.pdata_irq_base = (blankDevice [] 0x00780000).pdata_irq_base ∧
      s1.children = (blankDevice [] 0x00780000).children ∧
      s1.log = (blankDevice [] 0x00780000).log ++ [Event.kzalloc true] ∧
      s1.phase = Lifecycle.Failed :=
  ⟨Or.inr (by decide),
    probe_not_supported (allEnabled (fun _ => 0)) (blankDevice [] 0x00780000)
      (Or.inr (by decide))⟩

theorem probe_early (env : Env) (s : State)
    (h : env.kzalloc_ok = false ∨ s.functionality &&& fullFunctionality ≠ fullFunctionality ∨
      (if s.pdata_irq_base < 0 then env.irq_alloc_ret else s.pdata_irq_base) < 0) :
    ∃ ret s1 evs, rt5033_mfd_probe env s = some (ret, s1) ∧ ret < 0 ∧
      s1.children = s.children ∧ s1.phase = Lifecycle.Failed ∧
      s1.log = s.log ++ evs ∧ regAttempts evs = [] := by
  by_cases hk : env.kzalloc_ok = true
  · by_cases hf : s.functionality &&& (I2C_FUNC_SMBUS_BYTE_DATA ||| I2C_FUNC_SMBUS_WORD_DATA |||
      I2C_FUNC_SMBUS_I2C_BLOCK) = I2C_FUNC_SMBUS_BYTE_DATA ||| I2C_FUNC_SMBUS_WORD_DATA |||
      I2C_FUNC_SMBUS_I2C_BLOCK
    · have hb : (if s.pdata_irq_base < 0 then env.irq_alloc_ret else s.pdata_irq_base) < 0 := by
        rcases h with h | h | h
        · rw [hk] at h; exact absurd h (by decide)
        · exact absurd hf h
        · exact h
      by_cases hp : s.pdata_irq_base < 0
      · simp only [hp, if_true] at hb
        simp [rt5033_mfd_probe, hk, hf, hp, hb, irq_alloc_descs, State.emit, regAttempts, EINVAL]
        refine ⟨_, _, ⟨rfl, rfl⟩, ?_⟩
        simp [regAttempts]
      · simp [hp] at hb
    · simp [rt5033_mfd_probe, hk, hf, State.emit, regAttempts, ENOSYS]
      refine ⟨_, _, ⟨rfl, rfl⟩, ?_⟩
      simp [regAttempts]
  · have hk' : env.kzalloc_ok = false := by simpa using hk
    simp [rt5033_mfd_probe, hk', State.emit, regAttempts, ENOMEM]
    refine ⟨_, _, ⟨rfl, rfl⟩, ?_⟩
    simp [regAttempts]

theorem err_init_irq_facts (t : State) (ret : Int) :
    (err_init_irq t ret).1 = ret ∧ (err_init_irq t ret).2.children = t.children ∧
    (err_init_irq t ret).2.chip_alloc = false ∧ (err_init_irq t ret).2.io_lock_init = false ∧
    (err_init_irq t ret).2.wake_lock_init = false ∧
    (err_init_irq t ret).2.phase = Lifecycle.Failed ∧
    (err_init_irq t ret).2.irq_descs = t.irq_descs ∧
    (err_init_irq t ret).2.log =
      t.log ++ [Event.wake_lock_destroy, Event.mutex_destroy, Event.kfree] := by
  simp [err_init_irq, State.emit]

theorem probe_late (env : Env) (s : State) (hk : env.kzalloc_ok = true)
    (hf : s.functionality &&& fullFunctionality = fullFunctionality)
    (hb : ¬ (if s.pdata_irq_base < 0 then env.irq_alloc_ret else s.pdata_irq_base) < 0) :
    ∃ ret s1 pre evs, rt5033_mfd_probe env s = some (ret, s1) ∧
      s1.log = s.log ++ pre ++ evs ∧ regAttempts pre = [] ∧
      (∃ e ∈ pre, clearsManualReset e = true) ∧
      (regAttempts evs = [] ∨ regAttempts evs = attemptsOf env (enabledCategories env)) ∧
      (∀ p ∈ regAttempts evs, p.2 < 0 → ret = p.2 ∧ p.2 = env.mfd_add_ret p.1) ∧
      (ret < 0 ↔ env.init_irq_ret < 0 ∨ ∃ c ∈ enabledCategories env, env.mfd_add_ret c < 0) ∧
      s1.irq_descs = (if s.pdata_irq_base < 0 then env.irq_alloc_ret :: s.irq_descs
        else s.irq_descs) ∧
      (ret < 0 → (s.children = [] → s1.children = []) ∧ s1.chip_alloc = false ∧
        s1.io_lock_init = false ∧ s1.wake_lock_init = false ∧ s1.phase = Lifecycle.Failed) ∧
      (¬ ret < 0 → s1.children = s.children ++ (enabledCategories env).flatMap cells ∧
        s1.phase = Lifecycle.SubdevicesAttached ∧ s1.chip_alloc = true ∧
        regAttempts evs = attemptsOf env (enabledCategories env)) := by
  obtain ⟨t, pre, hp, htc, hta, -, -, htirq, htlog, hpre, hclr⟩ := probe_front env s hk hf hb
  by_cases hi : env.init_irq_ret < 0
  · simp only [hi, if_true] at hp
    obtain ⟨e1, e2, e3, e4, e5, e6, e7, e8⟩ := err_init_irq_facts t env.init_irq_ret
    refine ⟨(err_init_irq t env.init_irq_ret).1, (err_init_irq t env.init_irq_ret).2, pre,
      [Event.wake_lock_destroy, Event.mutex_destroy, Event.kfree], hp,
      ?_, hpre, hclr, Or.inl rfl, ?_, ?_, ?_, ?_, ?_⟩
    · rw [e8, htlog]
    · intro p hp'; simp [regAttempts] at hp'
    · rw [e1]; simp [hi]
    · rw [e7, htirq]
    · intro _; exact ⟨fun hc => by rw [e2, htc, hc], e3, e4, e5, e6⟩
    · intro h; rw [e1] at h; exact absurd hi h
  · simp only [hi, if_false] at hp
    have hc' : ({ t with phase := Lifecycle.InterruptsBound } : State).children =
        s.children := htc
    obtain ⟨evs, hevs⟩ := probe_regulator_log env { t with phase := Lifecycle.InterruptsBound }
      env.init_irq_ret
    have hatt := probe_regulator_attempts env { t with phase := Lifecycle.InterruptsBound }
      env.init_irq_ret
    have hcode := probe_regulator_code env { t with phase := Lifecycle.InterruptsBound }
      env.init_irq_ret
    have hevs' : regAttempts evs = attemptsOf env (enabledCategories env) := by
      rw [hevs, regAttempts_append] at hatt
      exact List.append_cancel_left hatt
    refine ⟨(probe_regulator env { t with phase := Lifecycle.InterruptsBound }
        env.init_irq_ret).1, (probe_regulator env { t with phase := Lifecycle.InterruptsBound }
        env.init_irq_ret).2, pre, evs, hp, ?_, hpre, hclr, Or.inr hevs', ?_, ?_, ?_, ?_, ?_⟩
    · rw [hevs]
      show t.log ++ evs = _
      rw [htlog]
    · rw [hevs']; exact hcode
    · constructor
      · intro h
        exact Or.inr (probe_regulator_fail env _ _ hi h).2.2.2.2.2.2
      · rintro (h | ⟨c, hcm, hcf⟩)
        · exact absurd h hi
        · by_contra hn
          exact (probe_regulator_ok env _ _ hn).2.2.2.2 c hcm hcf
    · by_cases h : (probe_regulator env { t with phase := Lifecycle.InterruptsBound }
        env.init_irq_ret).1 < 0
      · rw [(probe_regulator_fail env _ _ hi h).2.2.2.2.2.1]
        exact htirq
      · rw [(probe_regulator_ok env _ _ h).2.2.2.1]
        exact htirq
    · intro h
      obtain ⟨f1, f2, f3, f4, f5, -, -⟩ := probe_regulator_fail env _ _ hi h
      exact ⟨fun hc => f1 (by rw [hc', hc]), f2, f3, f4, f5⟩
    · intro h
      obtain ⟨o1, o2, o3, -, -⟩ := probe_regulator_ok env _ _ h
      exact ⟨by rw [o1, hc'], o2, by rw [o3]; exact hta, hevs'⟩

theorem clearedBeforeReg_none (l : List Event) (b : Bool) (h : regAttempts l = []) :
    clearedBeforeReg b l = true := by
  induction l generalizing b with
  | nil => rfl
  | cons e es ih =>
    have happ : regAttempts [e] ++ regAttempts es = [] := by
      rw [← regAttempts_append]; exact h
    have he : regAttempts [e] = [] := (List.append_eq_nil.mp happ).1
    have hes : regAttempts es = [] := (List.append_eq_nil.mp happ).2
    rw [clearedBeforeReg_cons e b he]
    exact ih _ hes

theorem probe_cases (env : Env) (s : State) :
    (env.kzalloc_ok = false ∨ s.functionality &&& fullFunctionality ≠ fullFunctionality ∨
      (if s.pdata_irq_base < 0 then env.irq_alloc_ret else s.pdata_irq_base) < 0) ∨
    (env.kzalloc_ok = true ∧ s.functionality &&& fullFunctionality = fullFunctionality ∧
      ¬ (if s.pdata_irq_base < 0 then env.irq_alloc_ret else s.pdata_irq_base) < 0) := by
  cases hk : env.kzalloc_ok
  · exact Or.inl (Or.inl rfl)
  · by_cases hf : s.functionality &&& fullFunctionality = fullFunctionality
    · by_cases hb : (if s.pdata_irq_base < 0 then env.irq_alloc_ret else s.pdata_irq_base) < 0
      · exact Or.inl (Or.inr (Or.inr hb))
      · exact Or.inr ⟨rfl, hf, hb⟩
    · exact Or.inl (Or.inr (Or.inl hf))

/-- C10.  In every bring-up attempt (the log starts empty), `rt5033_mfd_probe`
returns, and the registration attempts of its log are a prefix of the enabled
categories in the order regulators, flash LED, charger; the list stops at the
first attempt that failed; every attempt comes after the entry into
`rt5033_assign_bits` that clears bit 3 of register 0x47.  The attempts are
either none (an earlier step failed) or the enabled categories up to and
including the first whose registration fails, and all of them when the
attempt succeeds. -/
theorem probe_registration_order (env : Env) (s : State) (hlog : s.log = []) :
    ∃ ret s1, rt5033_mfd_probe env s = some (ret, s1) ∧
      ((regAttempts s1.log).map Prod.fst <+: enabledCategories env) ∧
      stopsAtFailure (regAttempts s1.log) = true ∧
      clearedBeforeReg false s1.log = true ∧
      (regAttempts s1.log = [] ∨
        regAttempts s1.log = attemptsOf env (enabledCategories env)) ∧
      (¬ ret < 0 → (regAttempts s1.log).map Prod.fst = enabledCategories env) := by
  rcases probe_cases env s with h | ⟨hk, hf, hb⟩
  · obtain ⟨ret, s1, evs, hp, hret, -, -, hl, hevs⟩ := probe_early env s h
    have hr : regAttempts s1.log = [] := by rw [hl, hlog]; exact hevs
    refine ⟨ret, s1, hp, ?_, ?_, ?_, Or.inl hr, fun hn => absurd hret hn⟩
    · rw [hr]; exact List.nil_prefix
    · rw [hr]; rfl
    · exact clearedBeforeReg_none _ _ hr
  · obtain ⟨ret, s1, pre, evs, hp, hl, hpre, hclr, hor, -, hiff, -, -, hok⟩ :=
      probe_late env s hk hf hb
    have hr : regAttempts s1.log = regAttempts evs := by
      rw [hl, hlog, regAttempts_append, regAttempts_append, hpre]; rfl
    refine ⟨ret, s1, hp, ?_, ?_, ?_, ?_, ?_⟩
    · rw [hr]
      rcases hor with h | h
      · rw [h]; exact List.nil_prefix
      · rw [h]; exact attemptsOf_fst env _
    · rw [hr]
      rcases hor with h | h
      · rw [h]; rfl
      · rw [h]; exact attemptsOf_stops env _
    · rw [hl, hlog]
      exact clearedBeforeReg_append ([] ++ pre) evs false (by simpa using hpre)
        (Or.inr (by simpa using hclr))
    · rw [hr]; exact hor
    · intro hn
      obtain ⟨-, -, -, hatt⟩ := hok hn
      rw [hr, hatt]
      apply attemptsOf_all
      intro c hc hcf
      exact hn (hiff.mpr (Or.inr ⟨c, hc, hcf⟩))

/-- C10 at work: all three categories enabled, the flash LED fails: the
charger is not attempted. -/
theorem probe_registration_order_witness :
    (blankDevice [] fullFunctionality).log = [] ∧
    ∃ ret s1, rt5033_mfd_probe (allEnabled fledFails) (blankDevice [] fullFunctionality) =
        some (ret, s1) ∧
      regAttempts s1.log = [(Category.regulator, 0), (Category.fled, -12)] ∧
      ((regAttempts s1.log).map Prod.fst <+: enabledCategories (allEnabled fledFails)) ∧
      stopsAtFailure (regAttempts s1.log) = true ∧
      clearedBeforeReg false s1.log = true := by
  obtain ⟨ret, s1, hp, h1, h2, h3, -, -⟩ :=
    probe_registration_order (allEnabled fledFails) (blankDevice [] fullFunctionality) rfl
  have hv : (rt5033_mfd_probe (allEnabled fledFails) (blankDevice [] fullFunctionality)).map
      (fun r => regAttempts r.2.log) = some [(Category.regulator, 0), (Category.fled, -12)] := by
    decide
  rw [hp] at hv
  exact ⟨rfl, ret, s1, hp, by simpa using hv, h1, h2, h3⟩

/-- C2, counterexample.  All three categories enabled, no interrupt base
assigned by the board, `irq_alloc_descs` hands out the range at 100, the
registration of the charger fails with -12.  On return no sub-device is
registered and the chip handle is freed, but the range at 100 acquired during
the attempt is still allocated; and the value returned, -12, is the one
returned when it is the flash LED whose registration fails with -12, so it
does not identify the category. -/
theorem probe_rollback_counterexample :
    (rt5033_mfd_probe (allEnabled chargerFails) (blankDevice [] fullFunctionality)).map
      (fun r => (r.1, regAttempts r.2.log)) =
      some (-12, [(Category.regulator, 0), (Category.fled, 0), (Category.charger, -12)]) ∧
    (rt5033_mfd_probe (allEnabled chargerFails) (blankDevice [] fullFunctionality)).map
      (fun r => (r.2.children, r.2.chip_alloc, r.2.irq_descs)) = some ([], false, [100]) ∧
    (rt5033_mfd_probe (allEnabled chargerFails) (blankDevice [] fullFunctionality)).map
      (fun r => decide (Event.irq_alloc_descs 100 ∈ r.2.log)) = some true ∧
    (rt5033_mfd_probe (allEnabled fledFails) (blankDevice [] fullFunctionality)).map
      (fun r => (r.1, regAttempts r.2.log)) =
      some (-12, [(Category.regulator, 0), (Category.fled, -12)]) := by
  refine ⟨by decide, by decide, by decide, by decide⟩

/-- C2, amended.  In every bring-up attempt on a device without sub-devices
(the log starts empty), `rt5033_mfd_probe` returns, and if the registration of
a category failed in the attempt then the value returned is the negative code
that registration gave, no sub-device remains registered, the chip handle is
released (wake lock, mutex, memory), the attempt ends in `Failed`, and an
interrupt range allocated during the attempt is still allocated. -/
theorem probe_registration_failure (env : Env) (s : State) (hc : s.children = [])
    (hlog : s.log = []) :
    ∃ ret s1, rt5033_mfd_probe env s = some (ret, s1) ∧
      ∀ p ∈ regAttempts s1.log, p.2 < 0 →
        ret = p.2 ∧ p.2 = env.mfd_add_ret p.1 ∧
        s1.children = [] ∧ s1.wake_lock_init = false ∧ s1.io_lock_init = false ∧
        s1.chip_alloc = false ∧ s1.phase = Lifecycle.Failed ∧
        s1.irq_descs = (if s.pdata_irq_base < 0 then env.irq_alloc_ret :: s.irq_descs
          else s.irq_descs) := by
  rcases probe_cases env s with h | ⟨hk, hf, hb⟩
  · obtain ⟨ret, s1, evs, hp, -, -, -, hl, hevs⟩ := probe_early env s h
    have hr : regAttempts s1.log = [] := by rw [hl, hlog]; exact hevs
    refine ⟨ret, s1, hp, ?_⟩
    intro p hp'
    rw [hr] at hp'
    simp at hp'
  · obtain ⟨ret, s1, pre, evs, hp, hl, hpre, -, -, hcode, -, hirq, hfail, -⟩ :=
      probe_late env s hk hf hb
    have hr : regAttempts s1.log = regAttempts evs := by
      rw [hl, hlog, regAttempts_append, regAttempts_append, hpre]; rfl
    refine ⟨ret, s1, hp, ?_⟩
    intro p hp' hneg
    rw [hr] at hp'
    obtain ⟨h1, h2⟩ := hcode p hp' hneg
    obtain ⟨f1, f2, f3, f4, f5⟩ := hfail (by rw [h1]; exact hneg)
    exact ⟨h1, h2, f1 hc, f4, f3, f2, f5, hirq⟩

/-- C2, the amended statement at work: all three categories enabled, the
registration of the charger fails with -12. -/
theorem probe_registration_failure_witness :
    (blankDevice [] fullFunctionality).children = [] ∧
    (blankDevice [] fullFunctionality).log = [] ∧
    ∃ ret s1, rt5033_mfd_probe (allEnabled chargerFails) (blankDevice [] fullFunctionality) =
        some (ret, s1) ∧
      (Category.charger, -12) ∈ regAttempts s1.log ∧
      ret = -12 ∧ s1.children = [] ∧ s1.wake_lock_init = false ∧ s1.io_lock_init = false ∧
      s1.chip_alloc = false ∧ s1.phase = Lifecycle.Failed ∧ s1.irq_descs = [100] := by
  obtain ⟨ret, s1, hp, h⟩ := probe_registration_failure (allEnabled chargerFails)
    (blankDevice [] fullFunctionality) rfl rfl
  have hv : (rt5033_mfd_probe (allEnabled chargerFails)
      (blankDevice [] fullFunctionality)).map (fun r => regAttempts r.2.log) =
      some [(Category.regulator, 0), (Category.fled, 0), (Category.charger, -12)] := by
    decide
  rw [hp] at hv
  have hmem : (Category.charger, -12) ∈ regAttempts s1.log := by
    have hv' : regAttempts s1.log =
        [(Category.regulator, 0), (Category.fled, 0), (Category.charger, -12)] := by
      simpa using hv
    rw [hv']
    simp
  obtain ⟨h1, -, h3, h4, h5, h6, h7, h8⟩ := h _ hmem (by decide)
  exact ⟨rfl, rfl, ret, s1, hp, hmem, h1, h3, h4, h5, h6, h7, h8⟩

/-- C9, counterexample.  Register 0x47 has bit 3 set; the read of 0x47 and
the read inside `rt5033_clr_bits` succeed, the write that would clear the bit
fails with -5.  `rt5033_mfd_probe` returns 0 all the same, with the phase
`SubdevicesAttached`, the five cells registered and bit 3 of register 0x47
still set. -/
theorem probe_manual_reset_fault_counterexample :
    (rt5033_mfd_probe (allEnabled (fun _ => 0)) (resetArmedDevice [0, 0, -5])).map
      (fun r => (r.1, r.2.phase, r.2.children, r.2.regs 0x47)) =
      some (0, Lifecycle.SubdevicesAttached,
        [Cell.ldo_safe, Cell.ldo1, Cell.dcdc1, Cell.fled, Cell.charger], 0x08) ∧
    (rt5033_mfd_probe (allEnabled (fun _ => 0)) (resetArmedDevice [0, 0, -5])).map
      (fun r => decide (Event.write_byte 0x47 0 (-5) ∈ r.2.log)) = some true := by
  decide

/-- C9, amended.  In every bring-up attempt on a device without sub-devices,
whatever the outcome of the bus transfers (so also when the transfer that
clears the manual-reset bit fails), `rt5033_mfd_probe` returns; it returns an
error exactly when the allocation of the handle, the capability check, the
interrupt base, `rt5033_init_irq` or the registration of an enabled category
fails; then no sub-device is registered and the attempt ends in `Failed`;
otherwise every enabled category is registered and the attempt ends in
`SubdevicesAttached`. -/
theorem probe_result (env : Env) (s : State) (hc : s.children = []) :
    ∃ ret s1, rt5033_mfd_probe env s = some (ret, s1) ∧
      (ret < 0 ↔
        (env.kzalloc_ok = false ∨ s.functionality &&& fullFunctionality ≠ fullFunctionality ∨
          (if s.pdata_irq_base < 0 then env.irq_alloc_ret else s.pdata_irq_base) < 0 ∨
          env.init_irq_ret < 0 ∨ ∃ c ∈ enabledCategories env, env.mfd_add_ret c < 0)) ∧
      (ret < 0 → s1.children = [] ∧ s1.phase = Lifecycle.Failed) ∧
      (¬ ret < 0 → s1.children = (enabledCategories env).flatMap cells ∧
        s1.phase = Lifecycle.SubdevicesAttached) := by
  rcases probe_cases env s with h | ⟨hk, hf, hb⟩
  · obtain ⟨ret, s1, evs, hp, hret, hch, hph, -, -⟩ := probe_early env s h
    refine ⟨ret, s1, hp, ?_, ?_, ?_⟩
    · constructor
      · intro _
        rcases h with h | h | h
        · exact Or.inl h
        · exact Or.inr (Or.inl h)
        · exact Or.inr (Or.inr (Or.inl h))
      · intro _; exact hret
    · intro _; exact ⟨by rw [hch, hc], hph⟩
    · intro hn; exact absurd hret hn
  · obtain ⟨ret, s1, pre, evs, hp, -, -, -, -, -, hiff, -, hfail, hok⟩ :=
      probe_late env s hk hf hb
    refine ⟨ret, s1, hp, ?_, ?_, ?_⟩
    · constructor
      · intro h
        exact Or.inr (Or.inr (Or.inr (hiff.mp h)))
      · rintro (h | h | h | h)
        · rw [hk] at h; exact absurd h (by decide)
        · exact absurd hf h
        · exact absurd h hb
        · exact hiff.mpr h
    · intro h
      obtain ⟨f1, -, -, -, f5⟩ := hfail h
      exact ⟨f1 hc, f5⟩
    · intro h
      obtain ⟨o1, o2, -, -⟩ := hok h
      exact ⟨by rw [o1, hc]; rfl, o2⟩

/-- C9, the amended statement at work: the write that clears the manual-reset
bit fails with -5 and bring-up succeeds. -/
theorem probe_result_witness :
    (resetArmedDevice [0, 0, -5]).children = [] ∧
    ∃ ret s1, rt5033_mfd_probe (allEnabled (fun _ => 0)) (resetArmedDevice [0, 0, -5]) =
        some (ret, s1) ∧
      ¬ ret < 0 ∧
      s1.children = (enabledCategories (allEnabled (fun _ => 0))).flatMap cells ∧
      s1.phase = Lifecycle.SubdevicesAttached := by
  obtain ⟨ret, s1, hp, hiff, -, hok⟩ :=
    probe_result (allEnabled (fun _ => 0)) (resetArmedDevice [0, 0, -5]) rfl
  have hv : (rt5033_mfd_probe (allEnabled (fun _ => 0)) (resetArmedDevice [0, 0, -5])).map
      (fun r => r.1) = some 0 := by
    decide
  rw [hp] at hv
  have hret : ¬ ret < 0 := by
    have h0 : ret = 0 := by simpa using hv
    rw [h0]; decide
  exact ⟨rfl, ret, s1, hp, hret, (hok hret).1, (hok hret).2⟩

end RT5033
